import Mathlib

/-!
# Verification of the `odfcontrol` observation-data controller

A shallow embedding of `src/odfcontrol/odfcontrol.py` (the `ODF.setodf`
controller, the `inisas` environment initializer and its inner helper
`add_environ_variable`) together with proofs about the embedded code.

Modelling conventions:

* The process environment (`os.environ`) is an association list
  `Env = List (String × String)`; `getEnv`/`setEnv` mirror
  `os.environ.get` and assignment.
* Python's `str.split(os.pathsep)` / `os.pathsep.join` are modelled
  character-exactly on `List Char` (`splitSep` / `joinSep`), including the
  behaviour on empty strings and empty entries.
* Python truthiness of an optional string (`if not x:`) is `optTruthy`:
  `None` and `""` are falsy.
* Exceptions are explicit: `PyErr` distinguishes `raise Exception(msg)`,
  `sys.exit(n)`, `IndexError` (indexing an empty list), `TypeError`
  (e.g. `open()` applied to a list, or subscripting `None`), `ValueError`
  (tuple-unpack of `str.split()`), and `FileNotFoundError`.
* The filesystem and the external world (downloads, `glob` results,
  subprocess exit codes, file contents) are an oracle `World`; directories
  created/removed by the controller are tracked in the state `St`, and all
  externally visible actions are recorded in an event trace.
-/

/-! ## Characters and strings -/

/-- The path separator used by `os.pathsep` on POSIX. -/
def pathsepChar : Char := ':'

/-- Python `s.split(':')` on a character list: splits at every separator,
keeping empty segments; splitting the empty string yields one empty
segment, exactly like `''.split(':') == ['']` in Python. -/
def splitSep : List Char → List (List Char)
  | [] => [[]]
  | c :: cs =>
    if c = pathsepChar then [] :: splitSep cs
    else
      match splitSep cs with
      | [] => [[c]]
      | h :: t => (c :: h) :: t

/-- Python `':'.join(parts)` on character lists. -/
def joinSep : List (List Char) → List Char
  | [] => []
  | [p] => p
  | p :: q :: t => p ++ pathsepChar :: joinSep (q :: t)

theorem splitSep_ne_nil (l : List Char) : splitSep l ≠ [] := by
  induction l with
  | nil => simp [splitSep]
  | cons c cs ih =>
    simp only [splitSep]
    split
    · simp
    · cases h : splitSep cs with
      | nil => simp
      | cons h t => simp

theorem joinSep_cons_of_ne_nil (p : List Char) {ps : List (List Char)} (h : ps ≠ []) :
    joinSep (p :: ps) = p ++ pathsepChar :: joinSep ps := by
  cases ps with
  | nil => exact absurd rfl h
  | cons q t => rfl

/-- `join (split l) = l`: joining the split of any character list restores it. -/
theorem joinSep_splitSep (l : List Char) : joinSep (splitSep l) = l := by
  induction l with
  | nil => rfl
  | cons c cs ih =>
    simp only [splitSep]
    split
    · rename_i hc
      rw [joinSep_cons_of_ne_nil _ (splitSep_ne_nil cs), ih, hc]
      simp
    · cases h : splitSep cs with
      | nil => exact absurd h (splitSep_ne_nil cs)
      | cons hd t =>
        rw [h] at ih
        cases t with
        | nil => simpa [joinSep] using ih
        | cons q t' =>
          rw [joinSep_cons_of_ne_nil (c :: hd) (by simp)]
          rw [joinSep_cons_of_ne_nil hd (by simp)] at ih
          rw [← ih]
          simp

/-- Every segment produced by `splitSep` is free of the separator. -/
theorem splitSep_sep_not_mem {l : List Char} {p : List Char} (h : p ∈ splitSep l) :
    pathsepChar ∉ p := by
  induction l generalizing p with
  | nil => simp [splitSep] at h; simp [h]
  | cons c cs ih =>
    simp only [splitSep] at h
    split at h
    · rcases List.mem_cons.mp h with h' | h'
      · simp [h']
      · exact ih h'
    · rename_i hc
      cases hsp : splitSep cs with
      | nil => exact absurd hsp (splitSep_ne_nil cs)
      | cons hd t =>
        rw [hsp] at h
        rcases List.mem_cons.mp h with h' | h'
        · subst h'
          intro hmem
          rcases List.mem_cons.mp hmem with h'' | h''
          · exact hc h''.symm
          · exact ih (hsp ▸ List.mem_cons_self hd t) h''
        · exact ih (hsp ▸ List.mem_cons_of_mem hd h')

/-- Splitting a separator-free list yields a single segment. -/
theorem splitSep_of_not_mem {l : List Char} (h : pathsepChar ∉ l) :
    splitSep l = [l] := by
  induction l with
  | nil => rfl
  | cons c cs ih =>
    simp only [splitSep]
    rw [if_neg (by intro hc; exact h (hc ▸ List.mem_cons_self c cs))]
    rw [ih (fun hm => h (List.mem_cons_of_mem c hm))]

/-- `splitSep` distributes over a separator: splitting `l₁ ++ ':' :: l₂`
splits each side independently. -/
theorem splitSep_append_sep (l₁ l₂ : List Char) :
    splitSep (l₁ ++ pathsepChar :: l₂) = splitSep l₁ ++ splitSep l₂ := by
  induction l₁ with
  | nil => simp [splitSep]
  | cons c cs ih =>
    rw [List.cons_append]
    simp only [splitSep]
    by_cases hc : c = pathsepChar
    · rw [if_pos hc, if_pos hc, ih]
      simp
    · rw [if_neg hc, if_neg hc, ih]
      cases h : splitSep cs with
      | nil => exact absurd h (splitSep_ne_nil cs)
      | cons hd t => simp

/-- `split (join parts) = parts` when every part is separator-free and the
list of parts is nonempty. -/
theorem splitSep_joinSep {ps : List (List Char)} (hne : ps ≠ [])
    (hfree : ∀ p ∈ ps, pathsepChar ∉ p) :
    splitSep (joinSep ps) = ps := by
  induction ps with
  | nil => exact absurd rfl hne
  | cons p t ih =>
    cases t with
    | nil =>
      simp only [joinSep]
      exact splitSep_of_not_mem (hfree p (List.mem_cons_self p []))
    | cons q t' =>
      rw [joinSep_cons_of_ne_nil p (by simp), splitSep_append_sep,
        splitSep_of_not_mem (hfree p (List.mem_cons_self p _)),
        ih (by simp) (fun r hr => hfree r (List.mem_cons_of_mem p hr))]
      rfl

/-- `join (parts ++ [v]) = join parts ++ ':' :: v` for nonempty `parts`. -/
theorem joinSep_append_singleton (v : List Char) {ps : List (List Char)} (h : ps ≠ []) :
    joinSep (ps ++ [v]) = joinSep ps ++ pathsepChar :: v := by
  induction ps with
  | nil => exact absurd rfl h
  | cons p t ih =>
    cases t with
    | nil => simp [joinSep]
    | cons q t' =>
      rw [List.cons_append, joinSep_cons_of_ne_nil p (by simp),
        joinSep_cons_of_ne_nil p (by simp), ih (by simp)]
      simp

/-! String-level wrappers. -/

/-- Python `s.split(os.pathsep)`. -/
def splitPathsep (s : String) : List String := (splitSep s.data).map String.mk

/-- Python `os.pathsep.join(parts)`. -/
def joinPathsep (l : List String) : String := String.mk (joinSep (l.map String.data))

/-- A string free of the path separator `':'`. -/
def colonFree (s : String) : Prop := pathsepChar ∉ s.data

instance (s : String) : Decidable (colonFree s) := by
  unfold colonFree; infer_instance

theorem string_data_inj {a b : String} (h : a.data = b.data) : a = b := by
  cases a; cases b; simp_all

theorem joinPathsep_splitPathsep (s : String) : joinPathsep (splitPathsep s) = s := by
  apply string_data_inj
  simp only [joinPathsep, splitPathsep, List.map_map]
  have : (String.data ∘ String.mk) = id := rfl
  rw [this, List.map_id, joinSep_splitSep]

theorem splitPathsep_ne_nil (s : String) : splitPathsep s ≠ [] := by
  simp only [splitPathsep]
  intro h
  exact splitSep_ne_nil s.data (List.map_eq_nil_iff.mp h)

theorem splitPathsep_colonFree {s p : String} (h : p ∈ splitPathsep s) : colonFree p := by
  simp only [splitPathsep, List.mem_map] at h
  obtain ⟨l, hl, rfl⟩ := h
  exact splitSep_sep_not_mem hl

theorem splitPathsep_of_colonFree {s : String} (h : colonFree s) :
    splitPathsep s = [s] := by
  simp only [splitPathsep, splitSep_of_not_mem h, List.map]

theorem splitPathsep_empty : splitPathsep "" = [""] := rfl

/-- Splitting the join of separator-free parts restores the parts. -/
theorem splitPathsep_joinPathsep {ps : List String} (hne : ps ≠ [])
    (hfree : ∀ p ∈ ps, colonFree p) :
    splitPathsep (joinPathsep ps) = ps := by
  simp only [splitPathsep, joinPathsep]
  rw [splitSep_joinSep (by simpa using hne)
    (by intro p hp
        simp only [List.mem_map] at hp
        obtain ⟨q, hq, rfl⟩ := hp
        exact hfree q hq)]
  rw [List.map_map]
  have : (String.mk ∘ String.data) = id := by
    funext x; cases x; rfl
  rw [this, List.map_id]

/-- A joined list of two or more parts contains the separator, hence is
never the empty string. -/
theorem joinPathsep_ne_empty_of_two {p q : String} (ps : List String) :
    joinPathsep (p :: q :: ps) ≠ "" := by
  intro h
  have hd : (joinPathsep (p :: q :: ps)).data = ([] : List Char) := by rw [h]
  simp only [joinPathsep, List.map] at hd
  rw [joinSep_cons_of_ne_nil _ (by simp)] at hd
  simp at hd

/-! ## The process environment (`os.environ`) -/

/-- The process environment, an association list keyed by variable name. -/
abbrev Env := List (String × String)

/-- `os.environ.get(k)`. -/
def getEnv : Env → String → Option String
  | [], _ => none
  | (k', v) :: rest, k => if k' = k then some v else getEnv rest k

/-- `os.environ[k] = v`: replace the first binding of `k`, or append a new
binding. -/
def setEnv : Env → String → String → Env
  | [], k, v => [(k, v)]
  | (k', v') :: rest, k, v =>
    if k' = k then (k, v) :: rest else (k', v') :: setEnv rest k v

/-- Python truthiness of `os.environ.get(k)`: set and nonempty. -/
def envTruthy (e : Env) (k : String) : Bool :=
  match getEnv e k with
  | none => false
  | some v => v ≠ ""

theorem getEnv_setEnv_self (e : Env) (k v : String) :
    getEnv (setEnv e k v) k = some v := by
  induction e with
  | nil => simp [setEnv, getEnv]
  | cons p rest ih =>
    obtain ⟨k', v'⟩ := p
    simp only [setEnv]
    by_cases h : k' = k
    · rw [if_pos h]; simp [getEnv]
    · rw [if_neg h]; simp only [getEnv, if_neg h]; exact ih

theorem getEnv_setEnv_other (e : Env) {k k' : String} (h : k' ≠ k) (v : String) :
    getEnv (setEnv e k v) k' = getEnv e k' := by
  have hkk' : ¬ k = k' := fun hh => h hh.symm
  induction e with
  | nil => simp [setEnv, getEnv, hkk']
  | cons p rest ih =>
    obtain ⟨k₀, v₀⟩ := p
    simp only [setEnv]
    by_cases h₀ : k₀ = k
    · have h₀' : ¬ k₀ = k' := by rw [h₀]; exact hkk'
      rw [if_pos h₀]
      simp only [getEnv, if_neg hkk', if_neg h₀']
    · rw [if_neg h₀]
      simp only [getEnv]
      by_cases h₁ : k₀ = k'
      · rw [if_pos h₁, if_pos h₁]
      · rw [if_neg h₁, if_neg h₁, ih]

/-- Overwriting a key with the value it already holds is a no-op. -/
theorem setEnv_same {e : Env} {k v : String} (h : getEnv e k = some v) :
    setEnv e k v = e := by
  induction e with
  | nil => simp [getEnv] at h
  | cons p rest ih =>
    obtain ⟨k', v'⟩ := p
    simp only [getEnv] at h
    simp only [setEnv]
    by_cases h₀ : k' = k
    · rw [if_pos h₀]
      rw [if_pos h₀] at h
      simp only [Option.some.injEq] at h
      rw [h₀, h]
    · rw [if_neg h₀]
      rw [if_neg h₀] at h
      rw [ih h]

/-! ## `add_environ_variable` and `inisas`
(`src/odfcontrol/odfcontrol.py`, lines 603-678) -/

/-- One loop iteration of `add_environ_variable` for a single `value`:

```python
environ_var = os.environ.get(variable)
if not environ_var:
    os.environ[variable] = value
else:
    splitpath = environ_var.split(os.pathsep)
    if not value in splitpath:
        if prepend:
            splitpath.insert(0,value)
        else:
            splitpath.append(value)
    os.environ[variable] = os.pathsep.join(splitpath)
```
-/
def addOneValue (e : Env) (vbl value : String) (prepend : Bool) : Env :=
  match getEnv e vbl with
  | none => setEnv e vbl value
  | some ev =>
    if ev = "" then setEnv e vbl value
    else
      let splitpath := splitPathsep ev
      let splitpath :=
        if value ∈ splitpath then splitpath
        else if prepend then value :: splitpath else splitpath ++ [value]
      setEnv e vbl (joinPathsep splitpath)

/-- `add_environ_variable(variable, invalue, prepend)`: iterates
`addOneValue` over the list of values (a single string is the singleton
list, matching the `isinstance(invalue, str)` wrapping). -/
def add_environ_variable (e : Env) (vbl : String) (values : List String)
    (prepend : Bool) : Env :=
  values.foldl (fun acc v => addOneValue acc vbl v prepend) e

/-- `os.path.join(a, b)` for POSIX paths (two components). -/
def ospJoin (a b : String) : String :=
  if b.data.head? = some '/' then b
  else if a = "" then b
  else if a.data.getLast? = some '/' then a ++ b
  else a ++ "/" ++ b

/-- `binpath` of `inisas` (line 660). -/
def sasBinpath (sas_dir : String) : List String :=
  [ospJoin sas_dir "bin", ospJoin (ospJoin sas_dir "bin") "devel"]

/-- `libpath` of `inisas` (line 661). -/
def sasLibpath (sas_dir : String) : List String :=
  [ospJoin sas_dir "lib", ospJoin sas_dir "libextra", ospJoin sas_dir "libsys"]

/-- `perlpath` of `inisas` (line 662). -/
def sasPerlpath (sas_dir : String) : List String :=
  [ospJoin (ospJoin sas_dir "lib") "perl5"]

/-- `pythonpath` of `inisas` (line 663). -/
def sasPythonpath (sas_dir : String) : List String :=
  [ospJoin (ospJoin sas_dir "lib") "python"]

/-- Lines 672-675 of `inisas`: merge a legacy `PERLLIB` into `PERL5LIB`.

```python
perllib = os.environ.get('PERLLIB')
if perllib:
    splitpath = perllib.split(os.pathsep)
    add_environ_variable('PERL5LIB',splitpath,prepend=False)
```
-/
def perllibMerge (e : Env) : Env :=
  match getEnv e "PERLLIB" with
  | none => e
  | some perllib =>
    if perllib = "" then e
    else add_environ_variable e "PERL5LIB" (splitPathsep perllib) false

/-- The body of `inisas` after its precondition checks
(lines 656-678), as a pure transformation of the environment. -/
def inisasCore (e : Env) (sas_dir sas_ccfpath : String)
    (verbosity suppress_warning : Nat) : Env :=
  let e := add_environ_variable e "SAS_DIR" [sas_dir] true
  let e := add_environ_variable e "SAS_CCFPATH" [sas_ccfpath] true
  let e := add_environ_variable e "SAS_PATH" [sas_dir] true
  let e := add_environ_variable e "SAS_PATH"
    (sasBinpath sas_dir ++ sasLibpath sas_dir ++ sasPerlpath sas_dir ++
      sasPythonpath sas_dir) false
  let e := add_environ_variable e "PATH" (sasBinpath sas_dir) true
  let e := add_environ_variable e "LIBRARY_PATH" (sasLibpath sas_dir) false
  let e := add_environ_variable e "LD_LIBRARY_PATH" (sasLibpath sas_dir) false
  let e := add_environ_variable e "PERL5LIB" (sasPerlpath sas_dir) true
  let e := add_environ_variable e "PYTHONPATH" (sasPythonpath sas_dir) true
  let e := perllibMerge e
  let e := setEnv e "SAS_VERBOSITY" (toString verbosity)
  setEnv e "SAS_SUPPRESS_WARNING" (toString suppress_warning)

/-- `inisas(sas_dir, sas_ccfpath, verbosity, suppress_warning)` with its
precondition checks (LHEASOFT set; both directory arguments non-`None`). -/
def inisas (e : Env) (sas_dir sas_ccfpath : Option String)
    (verbosity suppress_warning : Nat) : Except String Env :=
  if ¬ envTruthy e "LHEASOFT" then
    .error "LHEASOFT is not set. Please initialise HEASOFT"
  else
    match sas_dir, sas_ccfpath with
    | none, _ => .error "sas_dir must be provided to initialize SAS using initializesas."
    | some _, none => .error "sas_ccfpath must be provided to initialize SAS using initializesas."
    | some sd, some cp => .ok (inisasCore e sd cp verbosity suppress_warning)

/-! ## Entry-level view of path-list variables -/

/-- The path entries `add_environ_variable` considers present in variable
`k`: the `os.pathsep` split of a truthy value. An unset or empty variable
has no entries, mirroring the `if not environ_var` test in the code. -/
def entriesOf (e : Env) (k : String) : List String :=
  match getEnv e k with
  | none => []
  | some ev => if ev = "" then [] else splitPathsep ev

theorem splitPathsep_join_cons (v : String) {ps : List String} (hne : ps ≠ [])
    (hfree : ∀ p ∈ ps, colonFree p) :
    splitPathsep (joinPathsep (v :: ps)) = splitPathsep v ++ ps := by
  have hmapne : ps.map String.data ≠ [] := by simpa using hne
  simp only [splitPathsep, joinPathsep, List.map]
  rw [joinSep_cons_of_ne_nil _ hmapne, splitSep_append_sep,
    splitSep_joinSep hmapne
      (by intro q hq
          simp only [List.mem_map] at hq
          obtain ⟨r, hr, rfl⟩ := hq
          exact hfree r hr),
    List.map_append, List.map_map]
  have : (String.mk ∘ String.data) = id := by funext x; cases x; rfl
  rw [this, List.map_id]

theorem splitPathsep_join_append (v : String) {ps : List String} (hne : ps ≠ [])
    (hfree : ∀ p ∈ ps, colonFree p) :
    splitPathsep (joinPathsep (ps ++ [v])) = ps ++ splitPathsep v := by
  have hmapne : ps.map String.data ≠ [] := by simpa using hne
  simp only [splitPathsep, joinPathsep, List.map_append, List.map]
  rw [joinSep_append_singleton _ hmapne, splitSep_append_sep,
    splitSep_joinSep hmapne
      (by intro q hq
          simp only [List.mem_map] at hq
          obtain ⟨r, hr, rfl⟩ := hq
          exact hfree r hr),
    List.map_append, List.map_map]
  have : (String.mk ∘ String.data) = id := by funext x; cases x; rfl
  rw [this, List.map_id]

theorem joinPathsep_cons_ne_empty (v : String) {ps : List String} (hne : ps ≠ []) :
    joinPathsep (v :: ps) ≠ "" := by
  cases ps with
  | nil => exact absurd rfl hne
  | cons q t => exact joinPathsep_ne_empty_of_two t

theorem joinPathsep_append_ne_empty (v : String) {ps : List String} (hne : ps ≠ []) :
    joinPathsep (ps ++ [v]) ≠ "" := by
  cases ps with
  | nil => exact absurd rfl hne
  | cons q t =>
    cases t with
    | nil => exact joinPathsep_ne_empty_of_two []
    | cons r t' => exact joinPathsep_ne_empty_of_two _

theorem addOneValue_of_none {e : Env} {vbl : String} (h : getEnv e vbl = none)
    (value : String) (p : Bool) :
    addOneValue e vbl value p = setEnv e vbl value := by
  simp [addOneValue, h]

theorem addOneValue_of_empty {e : Env} {vbl : String} (h : getEnv e vbl = some "")
    (value : String) (p : Bool) :
    addOneValue e vbl value p = setEnv e vbl value := by
  simp [addOneValue, h]

theorem addOneValue_of_some {e : Env} {vbl ev : String} (h : getEnv e vbl = some ev)
    (hev : ev ≠ "") (value : String) (p : Bool) :
    addOneValue e vbl value p =
      setEnv e vbl (joinPathsep
        (if value ∈ splitPathsep ev then splitPathsep ev
         else if p then value :: splitPathsep ev else splitPathsep ev ++ [value])) := by
  simp [addOneValue, h, hev]

/-- `addOneValue` never removes or reorders existing entries of the touched
variable: the old entry list survives as a contiguous block, extended only
at the front (`prepend = true`) or only at the back (`prepend = false`);
other variables are untouched. -/
theorem addOneValue_entries (e : Env) (vbl value : String) (p : Bool) :
    (∃ pre post,
      entriesOf (addOneValue e vbl value p) vbl = pre ++ entriesOf e vbl ++ post ∧
      (p = true → post = []) ∧ (p = false → pre = [])) ∧
    (∀ k', k' ≠ vbl → getEnv (addOneValue e vbl value p) k' = getEnv e k') := by
  constructor
  · cases hg : getEnv e vbl with
    | none =>
      rw [addOneValue_of_none hg]
      refine ⟨if p then (if value = "" then [] else splitPathsep value) else [],
        if p then [] else (if value = "" then [] else splitPathsep value), ?_, ?_, ?_⟩
      · simp only [entriesOf, hg, getEnv_setEnv_self]
        cases p <;> simp
      · intro hp; simp [hp]
      · intro hp; simp [hp]
    | some ev =>
      by_cases hev : ev = ""
      · subst hev
        rw [addOneValue_of_empty hg]
        refine ⟨if p then (if value = "" then [] else splitPathsep value) else [],
          if p then [] else (if value = "" then [] else splitPathsep value), ?_, ?_, ?_⟩
        · simp only [entriesOf, hg, getEnv_setEnv_self]
          cases p <;> simp
        · intro hp; simp [hp]
        · intro hp; simp [hp]
      · rw [addOneValue_of_some hg hev]
        by_cases hmem : value ∈ splitPathsep ev
        · rw [if_pos hmem]
          refine ⟨[], [], ?_, fun _ => rfl, fun _ => rfl⟩
          simp only [entriesOf, hg, getEnv_setEnv_self, joinPathsep_splitPathsep,
            if_neg hev]
          simp
        · rw [if_neg hmem]
          cases p with
          | true =>
            rw [if_pos rfl]
            refine ⟨splitPathsep value, [], ?_, fun _ => rfl, fun h => absurd h (by simp)⟩
            simp only [entriesOf, hg, getEnv_setEnv_self, if_neg hev]
            rw [if_neg (joinPathsep_cons_ne_empty value (splitPathsep_ne_nil ev)),
              splitPathsep_join_cons value (splitPathsep_ne_nil ev)
                (fun q hq => splitPathsep_colonFree hq)]
            simp
          | false =>
            rw [if_neg (by simp)]
            refine ⟨[], splitPathsep value, ?_, fun h => absurd h (by simp), fun _ => rfl⟩
            simp only [entriesOf, hg, getEnv_setEnv_self, if_neg hev]
            rw [if_neg (joinPathsep_append_ne_empty value (splitPathsep_ne_nil ev)),
              splitPathsep_join_append value (splitPathsep_ne_nil ev)
                (fun q hq => splitPathsep_colonFree hq)]
            simp
  · intro k' hk'
    cases hg : getEnv e vbl with
    | none => rw [addOneValue_of_none hg]; exact getEnv_setEnv_other e hk' value
    | some ev =>
      by_cases hev : ev = ""
      · subst hev
        rw [addOneValue_of_empty hg]
        exact getEnv_setEnv_other e hk' value
      · rw [addOneValue_of_some hg hev]
        exact getEnv_setEnv_other e hk' _

theorem add_environ_variable_nil (e : Env) (vbl : String) (p : Bool) :
    add_environ_variable e vbl [] p = e := rfl

theorem add_environ_variable_cons (e : Env) (vbl v : String) (vs : List String) (p : Bool) :
    add_environ_variable e vbl (v :: vs) p =
      add_environ_variable (addOneValue e vbl v p) vbl vs p := rfl

/-- Fold version of `addOneValue_entries`, over the whole value list. -/
theorem add_environ_variable_entries (e : Env) (vbl : String) (values : List String)
    (p : Bool) :
    (∃ pre post,
      entriesOf (add_environ_variable e vbl values p) vbl = pre ++ entriesOf e vbl ++ post ∧
      (p = true → post = []) ∧ (p = false → pre = [])) ∧
    (∀ k', k' ≠ vbl → getEnv (add_environ_variable e vbl values p) k' = getEnv e k') := by
  induction values generalizing e with
  | nil =>
    exact ⟨⟨[], [], by simp [add_environ_variable_nil], fun _ => rfl, fun _ => rfl⟩,
      fun k' _ => by rw [add_environ_variable_nil]⟩
  | cons v vs ih =>
    obtain ⟨⟨pre1, post1, he1, hp1, hq1⟩, hf1⟩ := addOneValue_entries e vbl v p
    obtain ⟨⟨pre2, post2, he2, hp2, hq2⟩, hf2⟩ := ih (addOneValue e vbl v p)
    constructor
    · refine ⟨pre2 ++ pre1, post1 ++ post2, ?_, ?_, ?_⟩
      · rw [add_environ_variable_cons, he2, he1]
        simp [List.append_assoc]
      · intro hp; rw [hp1 hp, hp2 hp]; rfl
      · intro hp; rw [hq1 hp, hq2 hp]; rfl
    · intro k' hk'
      rw [add_environ_variable_cons, hf2 k' hk', hf1 k' hk']

/-- Frame of `add_environ_variable` on other variables. -/
theorem add_environ_variable_getEnv_other {k' vbl : String} (h : k' ≠ vbl)
    (e : Env) (values : List String) (p : Bool) :
    getEnv (add_environ_variable e vbl values p) k' = getEnv e k' :=
  (add_environ_variable_entries e vbl values p).2 k' h

/-! ## No-op and saturation lemmas for `add_environ_variable` -/

/-- Variable `k` is set to a nonempty value whose split contains `v`. -/
def ContainsNE (e : Env) (k v : String) : Prop :=
  ∃ ev, getEnv e k = some ev ∧ ev ≠ "" ∧ v ∈ splitPathsep ev

/-- Variable `k` holds `v` in the weaker sense that makes a further
`addOneValue` of `v` a no-op: either a nonempty value whose split contains
`v`, or the empty value with `v` itself empty. -/
def Contains (e : Env) (k v : String) : Prop :=
  ∃ ev, getEnv e k = some ev ∧ ((ev ≠ "" ∧ v ∈ splitPathsep ev) ∨ (ev = "" ∧ v = ""))

theorem Contains_of_ContainsNE {e : Env} {k v : String} (h : ContainsNE e k v) :
    Contains e k v := by
  obtain ⟨ev, hg, hne, hmem⟩ := h
  exact ⟨ev, hg, Or.inl ⟨hne, hmem⟩⟩

theorem ContainsNE_of_getEnv_eq {e e' : Env} {k : String}
    (h : getEnv e' k = getEnv e k) {v : String} (hc : ContainsNE e k v) :
    ContainsNE e' k v := by
  obtain ⟨ev, hg, hne, hmem⟩ := hc
  exact ⟨ev, h.trans hg, hne, hmem⟩

theorem Contains_of_getEnv_eq {e e' : Env} {k : String}
    (h : getEnv e' k = getEnv e k) {v : String} (hc : Contains e k v) :
    Contains e' k v := by
  obtain ⟨ev, hg, hrest⟩ := hc
  exact ⟨ev, h.trans hg, hrest⟩

/-- If the variable already holds the value, `addOneValue` is a no-op. -/
theorem addOneValue_noop {e : Env} {k v : String} (h : Contains e k v) (p : Bool) :
    addOneValue e k v p = e := by
  obtain ⟨ev, hg, hca⟩ := h
  rcases hca with ⟨hne, hmem⟩ | ⟨hev, hv⟩
  · rw [addOneValue_of_some hg hne, if_pos hmem, joinPathsep_splitPathsep,
      setEnv_same hg]
  · subst hev
    rw [addOneValue_of_empty hg, hv, setEnv_same hg]

/-- If the variable already holds every value of the list,
`add_environ_variable` is a no-op. -/
theorem add_environ_variable_noop {e : Env} {k : String} {vs : List String}
    (h : ∀ v ∈ vs, Contains e k v) (p : Bool) :
    add_environ_variable e k vs p = e := by
  induction vs with
  | nil => rfl
  | cons v t ih =>
    rw [add_environ_variable_cons, addOneValue_noop (h v (List.mem_cons_self v t)) p]
    exact ih (fun w hw => h w (List.mem_cons_of_mem v hw))

/-- A separator-free value splits to itself (empty string included). -/
theorem splitPathsep_singleton {v : String} (h : colonFree v) :
    splitPathsep v = [v] := splitPathsep_of_colonFree h

/-- After `addOneValue` of a separator-free value, the variable contains it
in the strong sense, provided the value is nonempty or the variable was
already truthy. -/
theorem addOneValue_establishes {e : Env} {k v : String} (hf : colonFree v)
    (hini : v ≠ "" ∨ (∃ ev, getEnv e k = some ev ∧ ev ≠ "")) (p : Bool) :
    ContainsNE (addOneValue e k v p) k v := by
  cases hg : getEnv e k with
  | none =>
    have hv : v ≠ "" := by
      rcases hini with hv | ⟨ev, hev, _⟩
      · exact hv
      · rw [hg] at hev; cases hev
    rw [addOneValue_of_none hg]
    exact ⟨v, getEnv_setEnv_self e k v, hv,
      by rw [splitPathsep_singleton hf]; exact List.mem_singleton_self v⟩
  | some ev =>
    by_cases hev : ev = ""
    · subst hev
      have hv : v ≠ "" := by
        rcases hini with hv | ⟨ev', hev', hne⟩
        · exact hv
        · rw [hg] at hev'; cases hev'; exact absurd rfl hne
      rw [addOneValue_of_empty hg]
      exact ⟨v, getEnv_setEnv_self e k v, hv,
        by rw [splitPathsep_singleton hf]; exact List.mem_singleton_self v⟩
    · rw [addOneValue_of_some hg hev]
      by_cases hmem : v ∈ splitPathsep ev
      · rw [if_pos hmem, joinPathsep_splitPathsep]
        exact ⟨ev, getEnv_setEnv_self e k ev, hev, hmem⟩
      · rw [if_neg hmem]
        cases p with
        | true =>
          rw [if_pos rfl]
          refine ⟨_, getEnv_setEnv_self e k _,
            joinPathsep_cons_ne_empty v (splitPathsep_ne_nil ev), ?_⟩
          rw [splitPathsep_join_cons v (splitPathsep_ne_nil ev)
            (fun q hq => splitPathsep_colonFree hq), splitPathsep_singleton hf]
          exact List.mem_cons_self v _
        | false =>
          rw [if_neg (by simp)]
          refine ⟨_, getEnv_setEnv_self e k _,
            joinPathsep_append_ne_empty v (splitPathsep_ne_nil ev), ?_⟩
          rw [splitPathsep_join_append v (splitPathsep_ne_nil ev)
            (fun q hq => splitPathsep_colonFree hq), splitPathsep_singleton hf]
          exact List.mem_append_right _ (List.mem_singleton_self v)

/-- `addOneValue` (of any value) preserves strong containment of other
values in the same variable. -/
theorem addOneValue_preserves {e : Env} {k w : String} (hc : ContainsNE e k w)
    (v : String) (p : Bool) :
    ContainsNE (addOneValue e k v p) k w := by
  obtain ⟨ev, hg, hne, hmem⟩ := hc
  rw [addOneValue_of_some hg hne]
  by_cases hm : v ∈ splitPathsep ev
  · rw [if_pos hm, joinPathsep_splitPathsep]
    exact ⟨ev, getEnv_setEnv_self e k ev, hne, hmem⟩
  · rw [if_neg hm]
    cases p with
    | true =>
      rw [if_pos rfl]
      refine ⟨_, getEnv_setEnv_self e k _,
        joinPathsep_cons_ne_empty v (splitPathsep_ne_nil ev), ?_⟩
      rw [splitPathsep_join_cons v (splitPathsep_ne_nil ev)
        (fun q hq => splitPathsep_colonFree hq)]
      exact List.mem_append_right _ hmem
    | false =>
      rw [if_neg (by simp)]
      refine ⟨_, getEnv_setEnv_self e k _,
        joinPathsep_append_ne_empty v (splitPathsep_ne_nil ev), ?_⟩
      rw [splitPathsep_join_append v (splitPathsep_ne_nil ev)
        (fun q hq => splitPathsep_colonFree hq)]
      exact List.mem_append_left _ hmem

/-- `add_environ_variable` preserves strong containment in the same
variable. -/
theorem add_environ_variable_preserves {e : Env} {k w : String}
    (hc : ContainsNE e k w) (vs : List String) (p : Bool) :
    ContainsNE (add_environ_variable e k vs p) k w := by
  induction vs generalizing e with
  | nil => exact hc
  | cons v t ih =>
    rw [add_environ_variable_cons]
    exact ih (addOneValue_preserves hc v p)

/-- After `add_environ_variable` of separator-free values, the variable
contains each of them in the strong sense (provided every value is nonempty
or the variable was already truthy). -/
theorem add_environ_variable_establishes {e : Env} {k : String} {vs : List String}
    (hf : ∀ v ∈ vs, colonFree v)
    (hini : (∀ v ∈ vs, v ≠ "") ∨ (∃ ev, getEnv e k = some ev ∧ ev ≠ "")) (p : Bool) :
    ∀ v ∈ vs, ContainsNE (add_environ_variable e k vs p) k v := by
  induction vs generalizing e with
  | nil => intro v hv; cases hv
  | cons v t ih =>
    intro w hw
    have hhead : ContainsNE (addOneValue e k v p) k v := by
      refine addOneValue_establishes (hf v (List.mem_cons_self v t)) ?_ p
      rcases hini with h | h
      · exact Or.inl (h v (List.mem_cons_self v t))
      · exact Or.inr h
    rcases List.mem_cons.mp hw with rfl | hw'
    · rw [add_environ_variable_cons]
      exact add_environ_variable_preserves hhead t p
    · rw [add_environ_variable_cons]
      refine ih (fun q hq => hf q (List.mem_cons_of_mem v hq)) ?_ w hw'
      obtain ⟨ev, hg, hne, _⟩ := hhead
      exact Or.inr ⟨ev, hg, hne⟩

/-! ## Duplicate-freedom lemmas -/

theorem string_eq_empty_iff {s : String} : s = "" ↔ s.data = [] := by
  constructor
  · intro h; rw [h]
  · intro h; exact string_data_inj (by rw [h])

theorem colonFree_append {a b : String} (ha : colonFree a) (hb : colonFree b) :
    colonFree (a ++ b) := by
  unfold colonFree at *
  rw [String.data_append]
  rw [List.mem_append]
  rintro (h | h)
  · exact ha h
  · exact hb h

theorem colonFree_ospJoin {a b : String} (ha : colonFree a) (hb : colonFree b) :
    colonFree (ospJoin a b) := by
  unfold ospJoin
  split
  · exact hb
  · split
    · exact hb
    · split
      · exact colonFree_append ha hb
      · exact colonFree_append (colonFree_append ha (by decide)) hb

theorem ospJoin_ne_empty {b : String} (hb : b ≠ "") (a : String) : ospJoin a b ≠ "" := by
  unfold ospJoin
  have hbd : b.data ≠ [] := fun h => hb (string_eq_empty_iff.mpr h)
  split
  · exact hb
  · split
    · exact hb
    · split
      · intro h
        rw [string_eq_empty_iff, String.data_append] at h
        exact hbd (List.append_eq_nil.mp h).2
      · intro h
        rw [string_eq_empty_iff, String.data_append] at h
        exact hbd (List.append_eq_nil.mp h).2

theorem entriesOf_setEnv_self (e : Env) (k val : String) :
    entriesOf (setEnv e k val) k = if val = "" then [] else splitPathsep val := by
  simp [entriesOf, getEnv_setEnv_self]

theorem entriesOf_of_getEnv_eq {e e' : Env} {k : String}
    (h : getEnv e' k = getEnv e k) : entriesOf e' k = entriesOf e k := by
  simp [entriesOf, h]

/-- `addOneValue` of a separator-free value introduces no duplicate entry. -/
theorem addOneValue_nodup {e : Env} {k v : String} (hf : colonFree v)
    (h : (entriesOf e k).Nodup) (p : Bool) :
    (entriesOf (addOneValue e k v p) k).Nodup := by
  cases hg : getEnv e k with
  | none =>
    rw [addOneValue_of_none hg, entriesOf_setEnv_self]
    split
    · exact List.nodup_nil
    · rw [splitPathsep_singleton hf]; exact List.nodup_singleton v
  | some ev =>
    by_cases hev : ev = ""
    · subst hev
      rw [addOneValue_of_empty hg, entriesOf_setEnv_self]
      split
      · exact List.nodup_nil
      · rw [splitPathsep_singleton hf]; exact List.nodup_singleton v
    · have hold : entriesOf e k = splitPathsep ev := by
        simp [entriesOf, hg, hev]
      rw [hold] at h
      rw [addOneValue_of_some hg hev]
      by_cases hmem : v ∈ splitPathsep ev
      · rw [if_pos hmem, joinPathsep_splitPathsep, entriesOf_setEnv_self,
          if_neg hev]
        exact h
      · rw [if_neg hmem]
        cases p with
        | true =>
          rw [if_pos rfl, entriesOf_setEnv_self,
            if_neg (joinPathsep_cons_ne_empty v (splitPathsep_ne_nil ev)),
            splitPathsep_join_cons v (splitPathsep_ne_nil ev)
              (fun q hq => splitPathsep_colonFree hq),
            splitPathsep_singleton hf]
          exact List.nodup_cons.mpr ⟨hmem, h⟩
        | false =>
          rw [if_neg (by simp), entriesOf_setEnv_self,
            if_neg (joinPathsep_append_ne_empty v (splitPathsep_ne_nil ev)),
            splitPathsep_join_append v (splitPathsep_ne_nil ev)
              (fun q hq => splitPathsep_colonFree hq),
            splitPathsep_singleton hf]
          rw [List.nodup_append]
          exact ⟨h, List.nodup_singleton v, by simpa using hmem⟩

/-- `add_environ_variable` of separator-free values introduces no duplicate
entry. -/
theorem add_environ_variable_nodup {e : Env} {k : String} {vs : List String}
    (hf : ∀ v ∈ vs, colonFree v) (h : (entriesOf e k).Nodup) (p : Bool) :
    (entriesOf (add_environ_variable e k vs p) k).Nodup := by
  induction vs generalizing e with
  | nil => exact h
  | cons v t ih =>
    rw [add_environ_variable_cons]
    exact ih (fun q hq => hf q (List.mem_cons_of_mem v hq))
      (addOneValue_nodup (hf v (List.mem_cons_self v t)) h p)

/-- C10: `add_environ_variable` never removes or reorders pre-existing
entries of the variable it touches: the old entry list survives as one
contiguous block, every old entry is still present, and the new entries are
added only at the front (`prepend = true`) or only at the back
(`prepend = false`); all other environment variables are untouched. -/
theorem c10_add_environ_variable_frame (e : Env) (vbl : String)
    (values : List String) (p : Bool) :
    (∃ pre post,
      entriesOf (add_environ_variable e vbl values p) vbl =
        pre ++ entriesOf e vbl ++ post ∧
      (p = true → post = []) ∧ (p = false → pre = []) ∧
      (∀ x ∈ entriesOf e vbl, x ∈ entriesOf (add_environ_variable e vbl values p) vbl)) ∧
    (∀ k', k' ≠ vbl → getEnv (add_environ_variable e vbl values p) k' = getEnv e k') := by
  obtain ⟨⟨pre, post, heq, hp, hq⟩, hframe⟩ := add_environ_variable_entries e vbl values p
  refine ⟨⟨pre, post, heq, hp, hq, ?_⟩, hframe⟩
  intro x hx
  rw [heq]
  exact List.mem_append_left _ (List.mem_append_right _ hx)

/-! ## Idempotence of the environment initializer -/

theorem perllibMerge_of_none {e : Env} (h : getEnv e "PERLLIB" = none) :
    perllibMerge e = e := by
  simp [perllibMerge, h]

theorem perllibMerge_of_empty {e : Env} (h : getEnv e "PERLLIB" = some "") :
    perllibMerge e = e := by
  simp [perllibMerge, h]

theorem perllibMerge_of_some {e : Env} {pl : String} (h : getEnv e "PERLLIB" = some pl)
    (hne : pl ≠ "") :
    perllibMerge e = add_environ_variable e "PERL5LIB" (splitPathsep pl) false := by
  simp [perllibMerge, h, hne]

theorem perllibMerge_getEnv_other {e : Env} {k : String} (h : k ≠ "PERL5LIB") :
    getEnv (perllibMerge e) k = getEnv e k := by
  cases hpl : getEnv e "PERLLIB" with
  | none => rw [perllibMerge_of_none hpl]
  | some pl =>
    by_cases hne : pl = ""
    · subst hne; rw [perllibMerge_of_empty hpl]
    · rw [perllibMerge_of_some hpl hne]
      exact add_environ_variable_getEnv_other h _ _ _

theorem perllibMerge_preserves {e : Env} {k w : String} (hc : ContainsNE e k w) :
    ContainsNE (perllibMerge e) k w := by
  cases hpl : getEnv e "PERLLIB" with
  | none => rw [perllibMerge_of_none hpl]; exact hc
  | some pl =>
    by_cases hne : pl = ""
    · subst hne; rw [perllibMerge_of_empty hpl]; exact hc
    · rw [perllibMerge_of_some hpl hne]
      by_cases hk : k = "PERL5LIB"
      · subst hk; exact add_environ_variable_preserves hc _ _
      · exact ContainsNE_of_getEnv_eq
          (add_environ_variable_getEnv_other hk _ _ _) hc

/-- Each derived search-path value is separator-free and nonempty when
`sas_dir` is separator-free. -/
theorem sasPathValues_props {sd : String} (hsd : colonFree sd) :
    ∀ w ∈ sasBinpath sd ++ sasLibpath sd ++ sasPerlpath sd ++ sasPythonpath sd,
      colonFree w ∧ w ≠ "" := by
  intro w hw
  simp only [sasBinpath, sasLibpath, sasPerlpath, sasPythonpath, List.cons_append,
    List.nil_append, List.mem_cons, List.not_mem_nil, or_false] at hw
  rcases hw with rfl | rfl | rfl | rfl | rfl | rfl | rfl <;>
    first
      | exact ⟨colonFree_ospJoin hsd (by decide), ospJoin_ne_empty (by decide) _⟩
      | exact ⟨colonFree_ospJoin (colonFree_ospJoin hsd (by decide)) (by decide),
          ospJoin_ne_empty (by decide) _⟩

/-- Saturation: the state of the environment after one `inisasCore` run,
expressed as containment facts that make a second run a no-op. `pl` is the
(untouched) value of `PERLLIB`. -/
def SatInisas (e : Env) (sd cp : String) (v s : Nat) (pl : Option String) : Prop :=
  ContainsNE e "SAS_DIR" sd ∧
  Contains e "SAS_CCFPATH" cp ∧
  (∀ w ∈ sd :: (sasBinpath sd ++ sasLibpath sd ++ sasPerlpath sd ++ sasPythonpath sd),
    ContainsNE e "SAS_PATH" w) ∧
  (∀ w ∈ sasBinpath sd, ContainsNE e "PATH" w) ∧
  (∀ w ∈ sasLibpath sd, ContainsNE e "LIBRARY_PATH" w) ∧
  (∀ w ∈ sasLibpath sd, ContainsNE e "LD_LIBRARY_PATH" w) ∧
  (∀ w ∈ sasPerlpath sd, ContainsNE e "PERL5LIB" w) ∧
  (∀ w ∈ sasPythonpath sd, ContainsNE e "PYTHONPATH" w) ∧
  (∀ plv, pl = some plv → plv ≠ "" → ∀ w ∈ splitPathsep plv, ContainsNE e "PERL5LIB" w) ∧
  getEnv e "PERLLIB" = pl ∧
  getEnv e "SAS_VERBOSITY" = some (toString v) ∧
  getEnv e "SAS_SUPPRESS_WARNING" = some (toString s)

/-- On a saturated environment, `inisasCore` is the identity. -/
theorem inisasCore_noop {e : Env} {sd cp : String} {v s : Nat} {pl : Option String}
    (hsat : SatInisas e sd cp v s pl) :
    inisasCore e sd cp v s = e := by
  obtain ⟨h1, h2, h3, h4, h5, h6, h7, h8, h9, h10, h11, h12⟩ := hsat
  have s1 : add_environ_variable e "SAS_DIR" [sd] true = e :=
    add_environ_variable_noop
      (by intro w hw
          rw [List.mem_singleton] at hw
          subst hw
          exact Contains_of_ContainsNE h1) true
  have s2 : add_environ_variable e "SAS_CCFPATH" [cp] true = e :=
    add_environ_variable_noop
      (by intro w hw
          rw [List.mem_singleton] at hw
          subst hw
          exact h2) true
  have s3 : add_environ_variable e "SAS_PATH" [sd] true = e :=
    add_environ_variable_noop
      (by intro w hw
          rw [List.mem_singleton] at hw
          exact Contains_of_ContainsNE
            (h3 w (by rw [hw]; exact List.mem_cons_self _ _))) true
  have s4 : add_environ_variable e "SAS_PATH"
      (sasBinpath sd ++ sasLibpath sd ++ sasPerlpath sd ++ sasPythonpath sd) false = e :=
    add_environ_variable_noop
      (fun w hw => Contains_of_ContainsNE (h3 w (List.mem_cons_of_mem _ hw))) false
  have s5 : add_environ_variable e "PATH" (sasBinpath sd) true = e :=
    add_environ_variable_noop (fun w hw => Contains_of_ContainsNE (h4 w hw)) true
  have s6 : add_environ_variable e "LIBRARY_PATH" (sasLibpath sd) false = e :=
    add_environ_variable_noop (fun w hw => Contains_of_ContainsNE (h5 w hw)) false
  have s7 : add_environ_variable e "LD_LIBRARY_PATH" (sasLibpath sd) false = e :=
    add_environ_variable_noop (fun w hw => Contains_of_ContainsNE (h6 w hw)) false
  have s8 : add_environ_variable e "PERL5LIB" (sasPerlpath sd) true = e :=
    add_environ_variable_noop (fun w hw => Contains_of_ContainsNE (h7 w hw)) true
  have s9 : add_environ_variable e "PYTHONPATH" (sasPythonpath sd) true = e :=
    add_environ_variable_noop (fun w hw => Contains_of_ContainsNE (h8 w hw)) true
  have s10 : perllibMerge e = e := by
    cases pl with
    | none => exact perllibMerge_of_none h10
    | some plv =>
      by_cases hpe : plv = ""
      · subst hpe; exact perllibMerge_of_empty h10
      · rw [perllibMerge_of_some h10 hpe]
        exact add_environ_variable_noop
          (fun w hw => Contains_of_ContainsNE (h9 plv rfl hpe w hw)) false
  have s11 : setEnv e "SAS_VERBOSITY" (toString v) = e := setEnv_same h11
  have s12 : setEnv e "SAS_SUPPRESS_WARNING" (toString s) = e := setEnv_same h12
  simp only [inisasCore, s1, s2, s3, s4, s5, s6, s7, s8, s9, s10, s11, s12]

/-- A first `inisasCore` run saturates the environment, provided `sas_dir`
is nonempty and both directory inputs are free of the path separator. -/
theorem inisasCore_sat (e : Env) (sd cp : String) (v s : Nat)
    (hsd : sd ≠ "") (hsdf : colonFree sd) (hcpf : colonFree cp) :
    SatInisas (inisasCore e sd cp v s) sd cp v s (getEnv e "PERLLIB") := by
  simp only [inisasCore]
  set e1 := add_environ_variable e "SAS_DIR" [sd] true with he1
  set e2 := add_environ_variable e1 "SAS_CCFPATH" [cp] true with he2
  set e3 := add_environ_variable e2 "SAS_PATH" [sd] true with he3
  set e4 := add_environ_variable e3 "SAS_PATH"
    (sasBinpath sd ++ sasLibpath sd ++ sasPerlpath sd ++ sasPythonpath sd) false with he4
  set e5 := add_environ_variable e4 "PATH" (sasBinpath sd) true with he5
  set e6 := add_environ_variable e5 "LIBRARY_PATH" (sasLibpath sd) false with he6
  set e7 := add_environ_variable e6 "LD_LIBRARY_PATH" (sasLibpath sd) false with he7
  set e8 := add_environ_variable e7 "PERL5LIB" (sasPerlpath sd) true with he8
  set e9 := add_environ_variable e8 "PYTHONPATH" (sasPythonpath sd) true with he9
  set e10 := perllibMerge e9 with he10
  set e11 := setEnv e10 "SAS_VERBOSITY" (toString v) with he11
  set e12 := setEnv e11 "SAS_SUPPRESS_WARNING" (toString s) with he12
  have hvals := sasPathValues_props hsdf
  -- frame equations for each step
  have f2 : ∀ k, k ≠ "SAS_CCFPATH" → getEnv e2 k = getEnv e1 k :=
    fun k h => he2 ▸ add_environ_variable_getEnv_other h _ _ _
  have f3 : ∀ k, k ≠ "SAS_PATH" → getEnv e3 k = getEnv e2 k :=
    fun k h => he3 ▸ add_environ_variable_getEnv_other h _ _ _
  have f4 : ∀ k, k ≠ "SAS_PATH" → getEnv e4 k = getEnv e3 k :=
    fun k h => he4 ▸ add_environ_variable_getEnv_other h _ _ _
  have f5 : ∀ k, k ≠ "PATH" → getEnv e5 k = getEnv e4 k :=
    fun k h => he5 ▸ add_environ_variable_getEnv_other h _ _ _
  have f6 : ∀ k, k ≠ "LIBRARY_PATH" → getEnv e6 k = getEnv e5 k :=
    fun k h => he6 ▸ add_environ_variable_getEnv_other h _ _ _
  have f7 : ∀ k, k ≠ "LD_LIBRARY_PATH" → getEnv e7 k = getEnv e6 k :=
    fun k h => he7 ▸ add_environ_variable_getEnv_other h _ _ _
  have f8 : ∀ k, k ≠ "PERL5LIB" → getEnv e8 k = getEnv e7 k :=
    fun k h => he8 ▸ add_environ_variable_getEnv_other h _ _ _
  have f9 : ∀ k, k ≠ "PYTHONPATH" → getEnv e9 k = getEnv e8 k :=
    fun k h => he9 ▸ add_environ_variable_getEnv_other h _ _ _
  have f10 : ∀ k, k ≠ "PERL5LIB" → getEnv e10 k = getEnv e9 k :=
    fun k h => he10 ▸ perllibMerge_getEnv_other h
  have f11 : ∀ k, k ≠ "SAS_VERBOSITY" → getEnv e11 k = getEnv e10 k :=
    fun k h => he11 ▸ getEnv_setEnv_other _ h _
  have f12 : ∀ k, k ≠ "SAS_SUPPRESS_WARNING" → getEnv e12 k = getEnv e11 k :=
    fun k h => he12 ▸ getEnv_setEnv_other _ h _
  -- PERLLIB is never written
  have hperllib : getEnv e12 "PERLLIB" = getEnv e "PERLLIB" := by
    rw [f12 _ (by decide), f11 _ (by decide), f10 _ (by decide), f9 _ (by decide),
      f8 _ (by decide), f7 _ (by decide), f6 _ (by decide), f5 _ (by decide),
      f4 _ (by decide), f3 _ (by decide), f2 _ (by decide), he1,
      add_environ_variable_getEnv_other (by decide) _ _ _]
  refine ⟨?_, ?_, ?_, ?_, ?_, ?_, ?_, ?_, ?_, hperllib, ?_, ?_⟩
  · -- SAS_DIR
    have hest : ContainsNE e1 "SAS_DIR" sd := by
      rw [he1]
      exact add_environ_variable_establishes (by simpa using hsdf)
        (Or.inl (by simpa using hsd)) true sd (List.mem_singleton_self sd)
    have hg : getEnv e12 "SAS_DIR" = getEnv e1 "SAS_DIR" := by
      rw [f12 _ (by decide), f11 _ (by decide), f10 _ (by decide), f9 _ (by decide),
        f8 _ (by decide), f7 _ (by decide), f6 _ (by decide), f5 _ (by decide),
        f4 _ (by decide), f3 _ (by decide), f2 _ (by decide)]
    exact ContainsNE_of_getEnv_eq hg hest
  · -- SAS_CCFPATH (weak containment: cp may be empty)
    have hest : Contains e2 "SAS_CCFPATH" cp := by
      by_cases hcp : cp = ""
      · subst hcp
        rw [he2]
        cases hg1 : getEnv e1 "SAS_CCFPATH" with
        | none =>
          refine ⟨"", ?_, Or.inr ⟨rfl, rfl⟩⟩
          rw [add_environ_variable_cons, add_environ_variable_nil,
            addOneValue_of_none hg1, getEnv_setEnv_self]
        | some ev =>
          by_cases hev : ev = ""
          · subst hev
            refine ⟨"", ?_, Or.inr ⟨rfl, rfl⟩⟩
            rw [add_environ_variable_cons, add_environ_variable_nil,
              addOneValue_of_empty hg1, getEnv_setEnv_self]
          · exact Contains_of_ContainsNE
              (add_environ_variable_establishes (by simpa using hcpf)
                (Or.inr ⟨ev, hg1, hev⟩) true "" (List.mem_singleton_self _))
      · exact Contains_of_ContainsNE
          (he2 ▸ add_environ_variable_establishes (by simpa using hcpf)
            (Or.inl (by simpa using hcp)) true cp (List.mem_singleton_self cp))
    have hg : getEnv e12 "SAS_CCFPATH" = getEnv e2 "SAS_CCFPATH" := by
      rw [f12 _ (by decide), f11 _ (by decide), f10 _ (by decide), f9 _ (by decide),
        f8 _ (by decide), f7 _ (by decide), f6 _ (by decide), f5 _ (by decide),
        f4 _ (by decide), f3 _ (by decide)]
    exact Contains_of_getEnv_eq hg hest
  · -- SAS_PATH
    intro w hw
    have hg : getEnv e12 "SAS_PATH" = getEnv e4 "SAS_PATH" := by
      rw [f12 _ (by decide), f11 _ (by decide), f10 _ (by decide), f9 _ (by decide),
        f8 _ (by decide), f7 _ (by decide), f6 _ (by decide), f5 _ (by decide)]
    refine ContainsNE_of_getEnv_eq hg ?_
    rcases List.mem_cons.mp hw with rfl | hw'
    · -- sd, established at e3 and preserved through e4
      have hest : ContainsNE e3 "SAS_PATH" w := by
        rw [he3]
        exact add_environ_variable_establishes (by simpa using hsdf)
          (Or.inl (by simpa using hsd)) true w (List.mem_singleton_self w)
      rw [he4]
      exact add_environ_variable_preserves hest _ _
    · rw [he4]
      exact add_environ_variable_establishes (fun q hq => (hvals q hq).1)
        (Or.inl (fun q hq => (hvals q hq).2)) false w hw'
  · -- PATH
    intro w hw
    have hg : getEnv e12 "PATH" = getEnv e5 "PATH" := by
      rw [f12 _ (by decide), f11 _ (by decide), f10 _ (by decide), f9 _ (by decide),
        f8 _ (by decide), f7 _ (by decide), f6 _ (by decide)]
    refine ContainsNE_of_getEnv_eq hg ?_
    rw [he5]
    exact add_environ_variable_establishes
      (fun q hq => (hvals q (List.mem_append_left _ (List.mem_append_left _
        (List.mem_append_left _ hq)))).1)
      (Or.inl (fun q hq => (hvals q (List.mem_append_left _ (List.mem_append_left _
        (List.mem_append_left _ hq)))).2)) true w hw
  · -- LIBRARY_PATH
    intro w hw
    have hg : getEnv e12 "LIBRARY_PATH" = getEnv e6 "LIBRARY_PATH" := by
      rw [f12 _ (by decide), f11 _ (by decide), f10 _ (by decide), f9 _ (by decide),
        f8 _ (by decide), f7 _ (by decide)]
    refine ContainsNE_of_getEnv_eq hg ?_
    rw [he6]
    exact add_environ_variable_establishes
      (fun q hq => (hvals q (List.mem_append_left _ (List.mem_append_left _
        (List.mem_append_right _ hq)))).1)
      (Or.inl (fun q hq => (hvals q (List.mem_append_left _ (List.mem_append_left _
        (List.mem_append_right _ hq)))).2)) false w hw
  · -- LD_LIBRARY_PATH
    intro w hw
    have hg : getEnv e12 "LD_LIBRARY_PATH" = getEnv e7 "LD_LIBRARY_PATH" := by
      rw [f12 _ (by decide), f11 _ (by decide), f10 _ (by decide), f9 _ (by decide),
        f8 _ (by decide)]
    refine ContainsNE_of_getEnv_eq hg ?_
    rw [he7]
    exact add_environ_variable_establishes
      (fun q hq => (hvals q (List.mem_append_left _ (List.mem_append_left _
        (List.mem_append_right _ hq)))).1)
      (Or.inl (fun q hq => (hvals q (List.mem_append_left _ (List.mem_append_left _
        (List.mem_append_right _ hq)))).2)) false w hw
  · -- PERL5LIB (the perlpath value)
    intro w hw
    have hest : ContainsNE e8 "PERL5LIB" w := by
      rw [he8]
      exact add_environ_variable_establishes
        (fun q hq => (hvals q (List.mem_append_left _
          (List.mem_append_right _ hq))).1)
        (Or.inl (fun q hq => (hvals q (List.mem_append_left _
          (List.mem_append_right _ hq))).2)) true w hw
    have h9' : ContainsNE e9 "PERL5LIB" w :=
      ContainsNE_of_getEnv_eq (f9 _ (by decide)) hest
    have h10' : ContainsNE e10 "PERL5LIB" w := he10 ▸ perllibMerge_preserves h9'
    exact ContainsNE_of_getEnv_eq
      (by rw [f12 _ (by decide), f11 _ (by decide)]) h10'
  · -- PYTHONPATH
    intro w hw
    have hg : getEnv e12 "PYTHONPATH" = getEnv e9 "PYTHONPATH" := by
      rw [f12 _ (by decide), f11 _ (by decide), f10 _ (by decide)]
    refine ContainsNE_of_getEnv_eq hg ?_
    rw [he9]
    exact add_environ_variable_establishes
      (fun q hq => (hvals q (List.mem_append_right _ hq)).1)
      (Or.inl (fun q hq => (hvals q (List.mem_append_right _ hq)).2)) true w hw
  · -- entries of a truthy PERLLIB are in PERL5LIB
    intro plv hpl hne w hw
    -- PERLLIB is unchanged up to e9
    have hpl9 : getEnv e9 "PERLLIB" = some plv := by
      rw [f9 _ (by decide), f8 _ (by decide), f7 _ (by decide), f6 _ (by decide),
        f5 _ (by decide), f4 _ (by decide), f3 _ (by decide), f2 _ (by decide),
        he1, add_environ_variable_getEnv_other (by decide) _ _ _]
      exact hpl
    -- PERL5LIB is truthy at e9 (it holds the perlpath value)
    have hperl9 : ∃ ev, getEnv e9 "PERL5LIB" = some ev ∧ ev ≠ "" := by
      have hest : ContainsNE e8 "PERL5LIB" (ospJoin (ospJoin sd "lib") "perl5") := by
        rw [he8]
        exact add_environ_variable_establishes
          (fun q hq => (hvals q (List.mem_append_left _
            (List.mem_append_right _ hq))).1)
          (Or.inl (fun q hq => (hvals q (List.mem_append_left _
            (List.mem_append_right _ hq))).2)) true _
          (List.mem_singleton_self _)
      obtain ⟨ev, hg, hne', _⟩ := ContainsNE_of_getEnv_eq (f9 _ (by decide)) hest
      exact ⟨ev, hg, hne'⟩
    have h10' : ContainsNE e10 "PERL5LIB" w := by
      rw [he10, perllibMerge_of_some hpl9 hne]
      exact add_environ_variable_establishes
        (fun q hq => splitPathsep_colonFree hq) (Or.inr hperl9) false w hw
    exact ContainsNE_of_getEnv_eq
      (by rw [f12 _ (by decide), f11 _ (by decide)]) h10'
  · -- SAS_VERBOSITY
    rw [f12 _ (by decide), he11, getEnv_setEnv_self]
  · -- SAS_SUPPRESS_WARNING
    rw [he12, getEnv_setEnv_self]

theorem nodup_frame_add {e : Env} {k vbl : String} (h : k ≠ vbl) (vs : List String)
    (p : Bool) (hn : (entriesOf e k).Nodup) :
    (entriesOf (add_environ_variable e vbl vs p) k).Nodup := by
  rwa [entriesOf_of_getEnv_eq (add_environ_variable_getEnv_other h _ _ _)]

theorem nodup_frame_setEnv {e : Env} {k k' : String} (h : k ≠ k') (val : String)
    (hn : (entriesOf e k).Nodup) : (entriesOf (setEnv e k' val) k).Nodup := by
  rwa [entriesOf_of_getEnv_eq (getEnv_setEnv_other _ h _)]

theorem nodup_perllibMerge {e : Env} {k : String}
    (hn : (entriesOf e k).Nodup) : (entriesOf (perllibMerge e) k).Nodup := by
  cases hpl : getEnv e "PERLLIB" with
  | none => rwa [perllibMerge_of_none hpl]
  | some pl =>
    by_cases hne : pl = ""
    · subst hne; rwa [perllibMerge_of_empty hpl]
    · rw [perllibMerge_of_some hpl hne]
      by_cases hk : k = "PERL5LIB"
      · subst hk
        exact add_environ_variable_nodup (fun q hq => splitPathsep_colonFree hq) hn false
      · exact nodup_frame_add hk _ _ hn

/-- `inisasCore` introduces no duplicate entry into any of the six
path-list variables. -/
theorem inisasCore_nodup (e : Env) (sd cp : String) (v s : Nat)
    (hsdf : colonFree sd) :
    ∀ k ∈ (["SAS_PATH", "PATH", "LIBRARY_PATH", "LD_LIBRARY_PATH", "PERL5LIB",
        "PYTHONPATH"] : List String),
      (entriesOf e k).Nodup → (entriesOf (inisasCore e sd cp v s) k).Nodup := by
  intro k hk h
  have hsdl : ∀ q ∈ [sd], colonFree q := by simpa using hsdf
  have hall : ∀ q ∈ sasBinpath sd ++ sasLibpath sd ++ sasPerlpath sd ++ sasPythonpath sd,
      colonFree q := fun q hq => (sasPathValues_props hsdf q hq).1
  have hbin : ∀ q ∈ sasBinpath sd, colonFree q :=
    fun q hq => hall q (List.mem_append_left _ (List.mem_append_left _
      (List.mem_append_left _ hq)))
  have hlib : ∀ q ∈ sasLibpath sd, colonFree q :=
    fun q hq => hall q (List.mem_append_left _ (List.mem_append_left _
      (List.mem_append_right _ hq)))
  have hperl : ∀ q ∈ sasPerlpath sd, colonFree q :=
    fun q hq => hall q (List.mem_append_left _ (List.mem_append_right _ hq))
  have hpy : ∀ q ∈ sasPythonpath sd, colonFree q :=
    fun q hq => hall q (List.mem_append_right _ hq)
  simp only [inisasCore]
  fin_cases hk
  · -- SAS_PATH
    exact nodup_frame_setEnv (by decide) _ (nodup_frame_setEnv (by decide) _
      (nodup_perllibMerge (nodup_frame_add (by decide) _ _
        (nodup_frame_add (by decide) _ _ (nodup_frame_add (by decide) _ _
          (nodup_frame_add (by decide) _ _ (nodup_frame_add (by decide) _ _
            (add_environ_variable_nodup hall
              (add_environ_variable_nodup hsdl
                (nodup_frame_add (by decide) _ _
                  (nodup_frame_add (by decide) _ _ h)) true) false))))))))
  · -- PATH
    exact nodup_frame_setEnv (by decide) _ (nodup_frame_setEnv (by decide) _
      (nodup_perllibMerge (nodup_frame_add (by decide) _ _
        (nodup_frame_add (by decide) _ _ (nodup_frame_add (by decide) _ _
          (nodup_frame_add (by decide) _ _
            (add_environ_variable_nodup hbin
              (nodup_frame_add (by decide) _ _ (nodup_frame_add (by decide) _ _
                (nodup_frame_add (by decide) _ _
                  (nodup_frame_add (by decide) _ _ h)) ) ) true)))))))
  · -- LIBRARY_PATH
    exact nodup_frame_setEnv (by decide) _ (nodup_frame_setEnv (by decide) _
      (nodup_perllibMerge (nodup_frame_add (by decide) _ _
        (nodup_frame_add (by decide) _ _ (nodup_frame_add (by decide) _ _
          (add_environ_variable_nodup hlib
            (nodup_frame_add (by decide) _ _ (nodup_frame_add (by decide) _ _
              (nodup_frame_add (by decide) _ _ (nodup_frame_add (by decide) _ _
                (nodup_frame_add (by decide) _ _ h))))) false))))))
  · -- LD_LIBRARY_PATH
    exact nodup_frame_setEnv (by decide) _ (nodup_frame_setEnv (by decide) _
      (nodup_perllibMerge (nodup_frame_add (by decide) _ _
        (nodup_frame_add (by decide) _ _
          (add_environ_variable_nodup hlib
            (nodup_frame_add (by decide) _ _ (nodup_frame_add (by decide) _ _
              (nodup_frame_add (by decide) _ _ (nodup_frame_add (by decide) _ _
                (nodup_frame_add (by decide) _ _
                  (nodup_frame_add (by decide) _ _ h)))))) false)))))
  · -- PERL5LIB
    exact nodup_frame_setEnv (by decide) _ (nodup_frame_setEnv (by decide) _
      (nodup_perllibMerge (nodup_frame_add (by decide) _ _
        (add_environ_variable_nodup hperl
          (nodup_frame_add (by decide) _ _ (nodup_frame_add (by decide) _ _
            (nodup_frame_add (by decide) _ _ (nodup_frame_add (by decide) _ _
              (nodup_frame_add (by decide) _ _ (nodup_frame_add (by decide) _ _
                (nodup_frame_add (by decide) _ _ h))))))) true))))
  · -- PYTHONPATH
    exact nodup_frame_setEnv (by decide) _ (nodup_frame_setEnv (by decide) _
      (nodup_perllibMerge
        (add_environ_variable_nodup hpy
          (nodup_frame_add (by decide) _ _ (nodup_frame_add (by decide) _ _
            (nodup_frame_add (by decide) _ _ (nodup_frame_add (by decide) _ _
              (nodup_frame_add (by decide) _ _ (nodup_frame_add (by decide) _ _
                (nodup_frame_add (by decide) _ _
                  (nodup_frame_add (by decide) _ _ h)))))))) true)))

/-- `inisasCore` never touches `LHEASOFT`. -/
theorem inisasCore_LHEASOFT (e : Env) (sd cp : String) (v s : Nat) :
    getEnv (inisasCore e sd cp v s) "LHEASOFT" = getEnv e "LHEASOFT" := by
  simp only [inisasCore]
  rw [getEnv_setEnv_other _ (by decide) _, getEnv_setEnv_other _ (by decide) _,
    perllibMerge_getEnv_other (by decide),
    add_environ_variable_getEnv_other (by decide) _ _ _,
    add_environ_variable_getEnv_other (by decide) _ _ _,
    add_environ_variable_getEnv_other (by decide) _ _ _,
    add_environ_variable_getEnv_other (by decide) _ _ _,
    add_environ_variable_getEnv_other (by decide) _ _ _,
    add_environ_variable_getEnv_other (by decide) _ _ _,
    add_environ_variable_getEnv_other (by decide) _ _ _,
    add_environ_variable_getEnv_other (by decide) _ _ _,
    add_environ_variable_getEnv_other (by decide) _ _ _]

theorem envTruthy_congr {e e' : Env} {k : String} (h : getEnv e' k = getEnv e k) :
    envTruthy e' k = envTruthy e k := by
  simp [envTruthy, h]

/-- C4 (amended): for every starting environment with `LHEASOFT` set and
truthy, and inputs `sas_dir` (nonempty) and `sas_ccfpath` that do not
contain the path separator `':'`, the initializer is idempotent — a second
`inisas` with the same inputs returns exactly the environment produced by
the first — and it introduces no duplicate entries: each of the six
path-list variables that was duplicate-free beforehand is duplicate-free
afterwards. (The original claim, quantified over all non-`None` inputs,
fails when `sas_dir` contains `':'` or is empty; and pre-existing duplicate
entries are preserved, not removed.) -/
theorem c4_inisas_idempotent (e : Env) (sd cp : String) (v s : Nat)
    (hL : envTruthy e "LHEASOFT" = true)
    (hsd : sd ≠ "") (hsdf : colonFree sd) (hcpf : colonFree cp) :
    inisas e (some sd) (some cp) v s = .ok (inisasCore e sd cp v s) ∧
    inisas (inisasCore e sd cp v s) (some sd) (some cp) v s =
      .ok (inisasCore e sd cp v s) ∧
    ∀ k ∈ (["SAS_PATH", "PATH", "LIBRARY_PATH", "LD_LIBRARY_PATH", "PERL5LIB",
        "PYTHONPATH"] : List String),
      (entriesOf e k).Nodup → (entriesOf (inisasCore e sd cp v s) k).Nodup := by
  have hL' : envTruthy (inisasCore e sd cp v s) "LHEASOFT" = true := by
    rw [envTruthy_congr (inisasCore_LHEASOFT e sd cp v s)]
    exact hL
  refine ⟨?_, ?_, inisasCore_nodup e sd cp v s hsdf⟩
  · simp [inisas, hL]
  · have hfix : inisasCore (inisasCore e sd cp v s) sd cp v s = inisasCore e sd cp v s :=
      inisasCore_noop (inisasCore_sat e sd cp v s hsd hsdf hcpf)
    simp [inisas, hL', hfix]

/-- Witness for C4 at a concrete environment and concrete inputs. -/
theorem c4_inisas_idempotent_witness :
    (envTruthy [("LHEASOFT", "1")] "LHEASOFT" = true ∧ "/sas" ≠ "" ∧
      colonFree "/sas" ∧ colonFree "/ccf") ∧
    inisas (inisasCore [("LHEASOFT", "1")] "/sas" "/ccf" 4 1)
        (some "/sas") (some "/ccf") 4 1 =
      .ok (inisasCore [("LHEASOFT", "1")] "/sas" "/ccf" 4 1) :=
  ⟨⟨by decide, by decide, by decide, by decide⟩,
   (c4_inisas_idempotent [("LHEASOFT", "1")] "/sas" "/ccf" 4 1
      (by decide) (by decide) (by decide) (by decide)).2.1⟩

/-- C4 counterexample: as stated over all non-`None` inputs the claim is
false — with `sas_dir = "a:b"` (which contains the path separator) a second
`inisas` run changes the environment again, because `"a:b"` is not a member
of the entry list `["a", "b"]` that splitting its own stored value
produces. -/
theorem c4_counterexample :
    envTruthy [("LHEASOFT", "1")] "LHEASOFT" = true ∧
    inisasCore (inisasCore [("LHEASOFT", "1")] "a:b" "/c" 4 1) "a:b" "/c" 4 1 ≠
      inisasCore [("LHEASOFT", "1")] "a:b" "/c" 4 1 :=
  ⟨by decide, by decide⟩

/-! ## The observation-session controller `ODF.setodf`
(`src/odfcontrol/odfcontrol.py`, lines 80-583)

The external world (downloads, `glob` results, subprocess exit codes, file
contents and file existence) is an oracle `World`; directories are tracked
in the state, and every externally visible action is recorded in an event
trace. File-level dynamics (a file appearing after a download) live in the
oracle, which is queried with the current working directory and the
pattern or name exactly as the code passes them. -/

/-- Python exceptions raised (or raisable) by `setodf`. -/
inductive PyErr
  | exc (msg : String)
  | systemExit (code : Nat)
  | indexError
  | typeError
  | valueError
  | fileNotFound (path : String)
  | fileExistsErr (path : String)
deriving DecidableEq, Repr

/-- Externally visible actions of the controller. -/
inductive Event
  | envSet (key value : String)
  | mkdirE (path : String)
  | rmtreeE (path : String)
  | removeE (path : String)
  | chdirE (path : String)
  | runE (cmd : List String)
  | shellE (cmd : String)
  | downloadE (odfid levl : String)
  | copytreeE (src dest : String)
  | ppsMessageE (ppsdir : String)
deriving DecidableEq, Repr

/-- Mutable process state: working directory, environment, the set of
existing directories, and the trace of actions performed so far. -/
structure St where
  cwd : String
  env : Env
  dirs : List String
  trace : List Event
deriving DecidableEq, Repr

/-- The external world: an oracle for everything outside the controller. -/
structure World where
  fileExists : String → String → Bool
  isFile : String → Bool
  glob : String → String → List String
  runProg : List String → Int
  runShell : String → Int
  readLines : String → List String
  extractOk : String → Bool
  walk : List (String × List String × List String)

/-- The arguments of `setodf`. -/
structure Inputs where
  odfid : Option String
  data_dir : Option String
  level : String
  sasfiles : Bool
  sas_ccf : Option String
  sas_odf : Option String
  cifbuild_opts : Option String
  odfingest_opts : Option String
  encryption_key : Option String
  overwrite : Bool
  repo : String
deriving DecidableEq, Repr

/-- Python truthiness of an optional string (`if not x:` with `x` a `str`
or `None`). -/
def optTruthy : Option String → Bool
  | none => false
  | some s => s ≠ ""

/-- A Python variable that may hold a string or a list (the local `level`
of `setodf` is rebound from a string to a list in the `esa` branch). -/
inductive PyVal
  | strV (s : String)
  | listV (l : List String)
deriving DecidableEq, Repr

/-- Python `==` between such a variable and a string literal: a list never
equals a string. -/
def pyEqStr : PyVal → String → Bool
  | PyVal.strV a, b => a = b
  | PyVal.listV _, _ => false

/-- Python `pat in s` on strings (substring test). -/
def hasSubstr (s pat : String) : Bool := decide (pat.data <:+: s.data)

/-- Python `s.split()` (split on whitespace, discarding empty pieces). -/
def splitWs : List Char → List (List Char)
  | [] => [[]]
  | c :: cs =>
    if c.isWhitespace then [] :: splitWs cs
    else
      match splitWs cs with
      | [] => [[c]]
      | h :: t => (c :: h) :: t

def pySplitWs (s : String) : List String :=
  ((splitWs s.data).filter (fun l => l ≠ [])).map String.mk

/-- Python `s.split(" ")` (split on each single space, keeping empties), as
used for `cifbuild_opts` / `odfingest_opts`. -/
def splitSpace : List Char → List (List Char)
  | [] => [[]]
  | c :: cs =>
    if c = ' ' then [] :: splitSpace cs
    else
      match splitSpace cs with
      | [] => [[c]]
      | h :: t => (c :: h) :: t

def pySplitSpace (s : String) : List String := (splitSpace s.data).map String.mk

/-- Append an event to the trace. -/
def emit (s : St) (ev : Event) : St := { s with trace := s.trace ++ [ev] }

/-- `os.environ[k] = v` plus its trace record. -/
def doEnvSet (s : St) (k v : String) : St :=
  { s with env := setEnv s.env k v, trace := s.trace ++ [Event.envSet k v] }

/-- `os.mkdir`: raises `FileExistsError` when the directory exists. -/
def doMkdir (s : St) (d : String) : Except (PyErr × St) St :=
  if d ∈ s.dirs then .error (.fileExistsErr d, s)
  else .ok { s with dirs := d :: s.dirs, trace := s.trace ++ [Event.mkdirE d] }

/-- Is `d` equal to `root` or strictly below it? -/
def startsWithDir (root d : String) : Bool :=
  d = root || decide ((root ++ "/").data <+: d.data)

/-- `shutil.rmtree`: removes the directory and everything below it. -/
def doRmtree (s : St) (d : String) : St :=
  { s with dirs := s.dirs.filter (fun x => ¬ startsWithDir d x),
           trace := s.trace ++ [Event.rmtreeE d] }

/-- `os.chdir`: raises `FileNotFoundError` on a missing directory. -/
def doChdir (s : St) (d : String) : Except (PyErr × St) St :=
  if d ∈ s.dirs then .ok { s with cwd := d, trace := s.trace ++ [Event.chdirE d] }
  else .error (.fileNotFound d, s)

/-- `os.remove` (existence was established by the caller). -/
def doRemove (s : St) (p : String) : St := emit s (Event.removeE p)

/-- Record a directory as existing (used for `shutil.copytree` output). -/
def addDir (s : St) (d : String) : St :=
  if d ∈ s.dirs then s else { s with dirs := d :: s.dirs }

/-- Python `lst[0]` for a string list. -/
def pyIndex0 (l : List String) (s : St) : Except (PyErr × St) String :=
  match l with
  | [] => .error (.indexError, s)
  | x :: _ => .ok x

/-- `try: os.path.exists(name) ... except FileExistsError: sys.exit(1)`
(lines 275-281, 543-549, 551-557). `os.path.exists` returns a boolean and
never raises, so the body cannot fail and the handler is dead code. -/
def tryExistsCheck (s : St) (w : World) (name : String) : Except (PyErr × St) St :=
  let body : Except (PyErr × St) St :=
    let _ := w.fileExists s.cwd name
    .ok s
  match body with
  | .error (.fileExistsErr _, s') => .error (.systemExit 1, s')
  | r => r

/-- `glob(...)` followed by
`try: os.path.exists(glob[0]) ... except FileExistsError: sys.exit(1)`
(lines 428-436, 463-471, 498-506). Indexing an empty glob result raises
`IndexError` inside the `try`, which `except FileExistsError` does not
catch. -/
def tryGlobExistsCheck (s : St) (w : World) (globResult : List String) :
    Except (PyErr × St) St :=
  let body : Except (PyErr × St) St :=
    match globResult with
    | [] => .error (.indexError, s)
    | m0 :: _ =>
      let _ := w.fileExists s.cwd m0
      .ok s
  match body with
  | .error (.fileExistsErr _, s') => .error (.systemExit 1, s')
  | r => r

/-- Input-compatibility checks of `setodf` (lines 141-155). Note the third
check fires only when BOTH `sas_ccf` and `sas_odf` are missing. -/
def checkInputs (i : Inputs) (s : St) : Except (PyErr × St) St :=
  if !optTruthy i.odfid && !i.sasfiles then
    .error (.exc "Either an odfid must be given -OR- sasfiles = True", s)
  else if optTruthy i.odfid && (optTruthy i.sas_ccf || optTruthy i.sas_odf) then
    .error (.exc "Parameter odfid icompatible with sas_ccf and sas_odf", s)
  else if i.sasfiles && (!optTruthy i.sas_ccf && !optTruthy i.sas_odf) then
    .error (.exc "Parameters sas_ccf and sas_odf must be set if sasfiles = True", s)
  else .ok s

/-- Required-environment checks of `setodf` (lines 162-181). -/
def envChecks (s : St) : Except (PyErr × St) St :=
  if !envTruthy s.env "LHEASOFT" then
    .error (.exc "LHEASOFT is not set. Please initialise HEASOFT", s)
  else if !envTruthy s.env "SAS_DIR" then
    .error (.exc "SAS_DIR is not defined. Please initialise SAS", s)
  else if !envTruthy s.env "SAS_CCFPATH" then
    .error (.exc "SAS_CCFPATH not set. Please define it", s)
  else .ok s

/-- Resolution of `data_dir` against the start directory (lines 187-195).
An empty string raises `IndexError` at `data_dir[0]`; the `'./'` branch is
unreachable because it requires the first character to be both `'/'` and
`'.'`. -/
def resolveDataDirAux (startdir dd : String) : Except PyErr String :=
  if dd.data = [] then .error .indexError
  else if dd.data.head? ≠ some '/' then .ok (ospJoin startdir dd)
  else if dd.data.take 2 = ['.', '/'] then
    .ok (ospJoin startdir (String.mk (dd.data.drop 2)))
  else .ok dd

def resolveDataDir (startdir : String) (data_dir : Option String) :
    Except PyErr String :=
  resolveDataDirAux startdir (match data_dir with | none => startdir | some d => d)

/-- Lines 199-204: create the data directory when missing, then move into
it. -/
def ensureDataDir (s : St) (ddir : String) : Except (PyErr × St) St :=
  if ddir ∈ s.dirs then .ok s else doMkdir s ddir

/-- The allowed acquisition levels (line 216). -/
def levelOpts : List String := ["ODF", "PPS", "ALL"]

/-- One iteration of the `esa` download loop (lines 268-303) for each
requested level: download, dead-code archive check, per-level directory
creation, unpack (`FileNotFoundError` when the archive is absent,
`Exception` when extraction fails), and removal of the archive. -/
def esaLoop (w : World) (oid odf_dir pps_dir odftar : String)
    (levels : List String) (s : St) : Except (PyErr × St) St :=
  match levels with
  | [] => .ok s
  | levl :: rest => do
    let s := emit s (Event.downloadE oid levl)
    let s ← tryExistsCheck s w odftar
    let s ←
      if levl = "ODF" then doMkdir s odf_dir
      else if levl = "PPS" then doMkdir s pps_dir
      else .ok s
    let s ←
      if !w.fileExists s.cwd odftar then .error (.fileNotFound odftar, s)
      else if !w.extractOk odftar then .error (.exc "tar file extraction failed", s)
      else .ok (doRemove s odftar)
    esaLoop w oid odf_dir pps_dir odftar rest s

/-- The pruning pass after a `heasarc` mirror download (lines 314-324). -/
def heasarcPrune (level : String)
    (walk : List (String × List String × List String)) (s : St) : St :=
  walk.foldl
    (fun st entry =>
      let path := entry.1
      let directories := entry.2.1
      let files := entry.2.2
      let st := files.foldl
        (fun st2 file =>
          if hasSubstr file "index.html" then doRemove st2 (ospJoin path file)
          else st2) st
      directories.foldl
        (fun st2 direc =>
          let st2 :=
            if hasSubstr direc "4XMM" then doRmtree st2 (ospJoin path direc) else st2
          let st2 :=
            if level = "ODF" && direc = "PPS" then doRmtree st2 (ospJoin path direc)
            else st2
          if level = "PPS" && direc = "ODF" then doRmtree st2 (ospJoin path direc)
          else st2) st)
    s

/-- The three acquisition policies (lines 257-340), returning the state of
the Python local `level` afterwards: the `esa` branch REBINDS `level` to a
list of level strings (lines 264-267); the other branches leave it a
string. -/
def repoAcquire (i : Inputs) (w : World) (oid obs_dir odf_dir pps_dir : String)
    (s : St) : Except (PyErr × St) (St × PyVal) :=
  if i.repo = "esa" then do
    let s ← doChdir s obs_dir
    let odftar := oid ++ ".tar.gz"
    let s := if w.fileExists s.cwd odftar then doRemove s odftar else s
    let levelL := if i.level = "ALL" then ["ODF", "PPS"] else [i.level]
    let s ← esaLoop w oid odf_dir pps_dir odftar levelL s
    .ok (s, PyVal.listV levelL)
  else if i.repo = "heasarc" then
    let levl := if i.level = "ALL" then "" else i.level
    let cmd := "wget -m -nH -e robots=off --cut-dirs=4 -l 2 -np https://heasarc.gsfc.nasa.gov/FTP/xmm/data/rev0/"
      ++ oid ++ "/" ++ levl
    let s := emit s (Event.shellE cmd)
    let s := heasarcPrune i.level w.walk s
    .ok (s, PyVal.strV i.level)
  else if i.repo = "sciserver" then do
    let dest0 := obs_dir
    let levl := if i.level = "ALL" then "" else i.level
    let dest_dir := if i.level = "ALL" then dest0 else ospJoin dest0 levl
    let s ←
      if levl = "ODF" then doMkdir s odf_dir
      else if levl = "PPS" then doMkdir s pps_dir
      else .ok s
    let archive := "/home/idies/workspace/headata/FTP/xmm/data/rev0//" ++ oid ++ "/" ++ levl
    let s := addDir (emit s (Event.copytreeE archive dest_dir)) dest_dir
    .ok (s, PyVal.strV i.level)
  else .ok (s, PyVal.strV i.level)

/-- The Python local `encryption_file`, which may hold `None`, a string, or
a glob result list (lines 349-368). -/
inductive EncFile
  | noneV
  | strV (s : String)
  | listV (l : List String)
deriving DecidableEq, Repr

/-- Python `encryption_file[0]` (line 359): `None` is not subscriptable; a
string yields its first character; a list yields its first element. -/
def encIndex0 (v : EncFile) (s : St) : Except (PyErr × St) String :=
  match v with
  | EncFile.noneV => .error (.typeError, s)
  | EncFile.strV str =>
    match str.data with
    | [] => .error (.indexError, s)
    | c :: _ => .ok (String.mk [c])
  | EncFile.listV [] => .error (.indexError, s)
  | EncFile.listV (x :: _) => .ok x

/-- The candidate key files (lines 351-353): glob for `*<odfid>*` in the
base directory, falling back to `*key*` when that finds nothing. -/
def keyCandidates (w : World) (cwd oid ddir : String) : List String :=
  let ef1 := w.glob cwd (ospJoin ddir ("*" ++ oid ++ "*"))
  if ef1.isEmpty then w.glob cwd (ospJoin ddir "*key*") else ef1

/-- The Python value of `encryption_file` after lines 352-358: the literal
string `'None'` when no candidate exists, else the glob list itself. -/
def encFileVal (cands : List String) : EncFile :=
  if cands.isEmpty then EncFile.strV "None" else EncFile.listV cands

def resolveKeyStep1 (i : Inputs) (w : World) (oid ddir : String) (s : St) :
    Except (PyErr × St) (EncFile × Option String) :=
  match i.encryption_key with
  | none =>
    if (keyCandidates w s.cwd oid ddir).length > 1 then
      .error (.exc "Multiple possible encryption key files.", s)
    else
      match encIndex0 (encFileVal (keyCandidates w s.cwd oid ddir)) s with
      | .error e => .error e
      | .ok first =>
        if w.isFile first then .ok (encFileVal (keyCandidates w s.cwd oid ddir), none)
        else .error (.exc "File decryption failed. No encryption file found.", s)
  | some k =>
    if w.isFile k then .ok (EncFile.strV k, some k)
    else .ok (EncFile.noneV, some k)

/-- Lines 369-373: `if encryption_file is not None: open(encryption_file)`
and read the first line; `open()` on a list raises `TypeError`. -/
def resolveKeyOpen (w : World) (s : St) (encryption_file : EncFile)
    (key0 : Option String) : Except (PyErr × St) (Option String) :=
  match encryption_file with
  | EncFile.noneV => .ok key0
  | EncFile.listV _ => .error (.typeError, s)
  | EncFile.strV p =>
    if !w.fileExists s.cwd p then .error (.fileNotFound p, s)
    else
      match w.readLines p with
      | [] => .error (.indexError, s)
      | l0 :: _ => .ok (some l0)

/-- Encryption-key resolution (lines 347-378). When no key parameter was
given, the glob result LIST itself ends up in `encryption_file`, so the
later `open(encryption_file)` raises `TypeError`. -/
def resolveKey (i : Inputs) (w : World) (oid ddir : String) (s : St) :
    Except (PyErr × St) String := do
  let p ← resolveKeyStep1 i w oid ddir s
  let key1 ← resolveKeyOpen w s p.1 p.2
  match key1 with
  | none => .error (.exc "File decryption failed. No encryption key found.", s)
  | some k => .ok k

/-- Per-file decryption loop (lines 381-395). -/
def decryptLoop (w : World) (key : String) (files : List String) (s : St) :
    Except (PyErr × St) St :=
  match files with
  | [] => .ok s
  | f :: rest =>
    let out_file := String.mk (f.data.take (f.data.length - 4))
    if w.fileExists s.cwd out_file then decryptLoop w key rest s
    else
      let cmd := "echo " ++ key ++ " | gpg --batch -o " ++ out_file
        ++ " --passphrase-fd 0 -d " ++ f
      let s := emit s (Event.shellE cmd)
      if w.runShell cmd ≠ 0 then .error (.exc "File decryption failed", s)
      else decryptLoop w key rest (doRemove s f)

/-- Decryption phase (lines 342-397). -/
def decryptPhase (i : Inputs) (w : World) (oid ddir : String) (s : St) :
    Except (PyErr × St) St :=
  if (w.glob s.cwd "**/*.gpg").isEmpty then .ok s
  else do
    let key ← resolveKey i w oid ddir s
    decryptLoop w key (w.glob s.cwd "**/*.gpg") s

/-- Gzip decompression loop (lines 399-407); the decompressed outputs are
written outside the model, the compressed sources are removed. -/
def gzLoop (files : List String) (s : St) : St :=
  files.foldl (fun st f => doRemove st f) s

/-- Secondary-archive extraction loop (lines 409-415); contents go under
the raw-data directory, the archives are removed. -/
def tarLoop (files : List String) (s : St) : St :=
  files.foldl (fun st f => doRemove st f) s

/-- The summary-file `PATH` keyword check after calibration
(lines 514-525): every line containing `PATH` is split (exactly two fields,
else `ValueError`) and a mismatch with the raw-data directory raises. -/
def checkSumSasPath (ls : List String) (odf_dir : String) : Except PyErr Unit :=
  match ls with
  | [] => .ok ()
  | l :: rest =>
    if hasSubstr l "PATH" then
      match pySplitWs l with
      | [_, p] =>
        if p ≠ odf_dir then
          .error (.exc ("SAS summary file PATH " ++ p ++ " mismatchs " ++ odf_dir))
        else checkSumSasPath rest odf_dir
      | _ => .error .valueError
    else checkSumSasPath rest odf_dir

/-- The calibration phase (lines 425-530): manifest check, `SAS_ODF`
export, `cifbuild`, `ccf.cif` check, `SAS_CCF` export, `odfingest`,
`SUM.SAS` check, `SAS_ODF` re-export, summary `PATH` check. -/
def calibrate (i : Inputs) (w : World) (odf_dir working_dir : String) (s : St) :
    Except (PyErr × St) St := do
  let s ← doChdir s odf_dir
  let s ← tryGlobExistsCheck s w (w.glob s.cwd "MANIFEST*")
  let s := doEnvSet s "SAS_ODF" odf_dir
  let s ← doChdir s working_dir
  let cmd1 :=
    match i.cifbuild_opts with
    | some opts => if opts ≠ "" then "cifbuild" :: pySplitSpace opts else ["cifbuild"]
    | none => ["cifbuild"]
  let s := emit s (Event.runE cmd1)
  if w.runProg cmd1 ≠ 0 then .error (.exc "cifbuild failed to complete", s)
  else do
    let s ← tryGlobExistsCheck s w (w.glob s.cwd "ccf.cif")
    let fullccfcif := ospJoin working_dir "ccf.cif"
    let s := doEnvSet s "SAS_CCF" fullccfcif
    let cmd2 :=
      match i.odfingest_opts with
      | some opts => if opts ≠ "" then "odfingest" :: pySplitSpace opts else ["odfingest"]
      | none => ["odfingest"]
    let s := emit s (Event.runE cmd2)
    if w.runProg cmd2 ≠ 0 then .error (.exc "odfingest failed to complete.", s)
    else do
      let sumsas := w.glob s.cwd "*SUM.SAS"
      let s ← tryGlobExistsCheck s w sumsas
      let sum0 ← pyIndex0 sumsas s
      let fullsumsas := ospJoin working_dir sum0
      let s := doEnvSet s "SAS_ODF" fullsumsas
      let lines ←
        if w.fileExists s.cwd fullsumsas then
          (.ok (w.readLines fullsumsas) : Except (PyErr × St) (List String))
        else .error (.fileNotFound fullsumsas, s)
      match checkSumSasPath lines odf_dir with
      | .ok _ => .ok s
      | .error e => .error (e, s)

/-- The id-driven acquisition path after both the observation and the
working directory exist (lines 257-530): acquisition, decryption,
decompression, untarring, then the PPS message or the calibration phase. -/
def idDrivenAcq (i : Inputs) (w : World) (oid ddir obs_dir odf_dir pps_dir
    working_dir : String) (s : St) : Except (PyErr × St) St := do
  let sv ← repoAcquire i w oid obs_dir odf_dir pps_dir s
  let s := sv.1
  let levelV := sv.2
  let s ← decryptPhase i w oid ddir s
  let s := gzLoop (w.glob s.cwd "**/*.gz") s
  let s := tarLoop (w.glob s.cwd "**/*.TAR") s
  if pyEqStr levelV "PPS" then
    let ppsdir := ospJoin (ospJoin ddir oid) "pps"
    .ok (emit s (Event.ppsMessageE ppsdir))
  else
    calibrate i w odf_dir working_dir s

/-- The id-driven acquisition path after the observation directory has been
created (lines 245-530): the working-directory creation (line 245-249),
then the acquisition pipeline. -/
def idDrivenCore (i : Inputs) (w : World) (oid ddir obs_dir odf_dir pps_dir
    working_dir : String) (s : St) : Except (PyErr × St) St :=
  (if working_dir ∈ s.dirs then (.ok s : Except (PyErr × St) St)
   else doMkdir s working_dir) >>=
  idDrivenAcq i w oid ddir obs_dir odf_dir pps_dir working_dir

/-- The id-driven acquisition path (lines 231-530). -/
def idDriven (i : Inputs) (w : World) (oid ddir obs_dir odf_dir pps_dir
    working_dir : String) (s : St) : Except (PyErr × St) St :=
  (if obs_dir ∈ s.dirs then
    if i.overwrite then (.ok (doRmtree s obs_dir) : Except (PyErr × St) St)
    else .error (.exc ("Directory for " ++ oid ++ " found, will not overwrite."), s)
   else .ok s) >>= fun s =>
  doMkdir s obs_dir >>=
  idDrivenCore i w oid ddir obs_dir odf_dir pps_dir working_dir

/-- Python `x[0] != '/'` on an optional string plus the absolute-path
rejection (lines 537-541): `None` is not subscriptable, the empty string
raises `IndexError`, a relative path raises. -/
def requireAbs (v : Option String) (s : St) : Except (PyErr × St) String :=
  match v with
  | none => .error (.typeError, s)
  | some str =>
    if str.data = [] then .error (.indexError, s)
    else if str.data.head? ≠ some '/' then
      .error (.exc (str ++ " must be defined with absolute path"), s)
    else .ok str

/-- The per-line `PATH` validation loop of pre-staged mode
(lines 570-579). -/
def prestagedPathLoop (w : World) (lines : List String) (s : St) :
    Except (PyErr × St) St :=
  match lines with
  | [] => .ok s
  | l :: rest =>
    if hasSubstr l "PATH" then
      match pySplitWs l with
      | [_, p] =>
        if !(p ∈ s.dirs || w.fileExists s.cwd p) then
          .error (.exc ("Summary file PATH " ++ p ++ " does not exist."), s)
        else
          match w.glob s.cwd (ospJoin p "MANIFEST*") with
          | [] => .error (.indexError, s)
          | m0 :: _ =>
            if !w.fileExists s.cwd m0 then
              .error (.exc ("Missing " ++ m0 ++ " file. Missing ODF components?"), s)
            else prestagedPathLoop w rest s
      | _ => .error (.valueError, s)
    else prestagedPathLoop w rest s

/-- The pre-staged-file path (lines 532-583). Note `SAS_CCF` is exported
(line 559) BEFORE the summary-file name and `PATH` checks; `SAS_ODF` only
at the very end (line 581). -/
def prestaged (i : Inputs) (w : World) (s : St) : Except (PyErr × St) St := do
  let sasccf ← requireAbs i.sas_ccf s
  let sasodf ← requireAbs i.sas_odf s
  let s ← tryExistsCheck s w sasccf
  let s ← tryExistsCheck s w sasodf
  let s := doEnvSet s "SAS_CCF" sasccf
  if !hasSubstr sasodf "SUM.SAS" then
    .error (.exc (sasodf ++ " does not refer to a SAS SUM file"), s)
  else do
    let lines ←
      if w.fileExists s.cwd sasodf then
        (.ok (w.readLines sasodf) : Except (PyErr × St) (List String))
      else .error (.fileNotFound sasodf, s)
    let s ← prestagedPathLoop w lines s
    .ok (doEnvSet s "SAS_ODF" sasodf)

/-- `ODF.setodf` (lines 80-583): input checks, environment checks,
data-directory resolution, then the id-driven or pre-staged path. Note
line 225 `os.path.join(self.data_dir, odfid)` runs in BOTH modes and
raises `TypeError` when `odfid` is `None`. -/
def setodf (i : Inputs) (w : World) (s0 : St) : Except (PyErr × St) St := do
  let s ← checkInputs i s0
  let s ← envChecks s
  let ddir ←
    match resolveDataDir s.cwd i.data_dir with
    | .ok d => (.ok d : Except (PyErr × St) String)
    | .error e => .error (e, s)
  let s ← ensureDataDir s ddir
  let s ← doChdir s ddir
  if i.level ∈ levelOpts then
    match i.odfid with
    | none => .error (.typeError, s)
    | some oid =>
      let obs_dir := ospJoin ddir oid
      let odf_dir := ospJoin obs_dir "ODF"
      let pps_dir := ospJoin obs_dir "PPS"
      let working_dir := ospJoin obs_dir "working"
      if optTruthy i.odfid then
        idDriven i w oid ddir obs_dir odf_dir pps_dir working_dir s
      else if i.sasfiles then
        prestaged i w s
      else .ok s
  else .error (.exc "ODF request level is undefined!", s)

/-! ## Result accessors and shared concrete scenarios -/

/-- The exception of a failed run, if any. -/
def errOf : Except (PyErr × St) St → Option PyErr
  | .ok _ => none
  | .error (e, _) => some e

/-- The final state of a run (at the point of failure for a failed run). -/
def stOf : Except (PyErr × St) St → St
  | .ok s => s
  | .error (_, s) => s

/-- An absolute POSIX path: first character is `'/'`. -/
def isAbs (s : String) : Prop := s.data.head? = some '/'

instance (s : String) : Decidable (isAbs s) := by unfold isAbs; infer_instance

/-- An initialized environment as `setodf` requires it. -/
def baseEnv : Env := [("LHEASOFT", "1"), ("SAS_DIR", "/sas"), ("SAS_CCFPATH", "/ccfpath")]

/-- A starting state: absolute working directory, data directory present. -/
def baseSt : St := { cwd := "/home", env := baseEnv, dirs := ["/data"], trace := [] }

/-- Inputs for an id-driven run. -/
def idInputs (level repo : String) (overwrite : Bool) : Inputs :=
  { odfid := some "0123456789", data_dir := some "/data", level := level,
    sasfiles := false, sas_ccf := none, sas_odf := none, cifbuild_opts := none,
    odfingest_opts := none, encryption_key := none, overwrite := overwrite,
    repo := repo }

/-- A world in which the download, both calibration programs and all
output files succeed, but the produced summary file carries a wrong `PATH`
value. -/
def calWorld : World :=
  { fileExists := fun _ _ => true
  , isFile := fun _ => false
  , glob := fun _ pat =>
      if pat = "MANIFEST*" then ["MANIFEST.sas"]
      else if pat = "ccf.cif" then ["ccf.cif"]
      else if pat = "*SUM.SAS" then ["0123SUM.SAS"]
      else []
  , runProg := fun _ => 0
  , runShell := fun _ => 0
  , readLines := fun _ => ["PATH /wrong"]
  , extractOk := fun _ => true
  , walk := [] }

/-! ## C1: behaviour of the summary-file PATH check -/

/-- C1 counterexample: the claim that a summary `PATH` mismatch does not
abort the run is false — in an id-driven `esa` run that reaches the check
with summary contents `PATH /wrong`, `setodf` raises. -/
theorem c1_counterexample :
    errOf (setodf (idInputs "ODF" "esa" false) calWorld baseSt) =
      some (PyErr.exc "SAS summary file PATH /wrong mismatchs /data/0123456789/ODF") := by
  decide

/-- C1 (amended): when the post-calibration summary check is reached and
some summary line containing `PATH` splits into two fields whose second
differs from the raw-data directory (and every `PATH` line is
two-field), the check raises an exception — the mismatch IS fatal,
`setodf` does not return normally. -/
theorem c1_sumsas_mismatch_raises (ls : List String) (odf_dir : String)
    (hwell : ∀ l ∈ ls, hasSubstr l "PATH" = true → ∃ k p, pySplitWs l = [k, p])
    (hbad : ∃ l ∈ ls, hasSubstr l "PATH" = true ∧
      ∃ k p, pySplitWs l = [k, p] ∧ p ≠ odf_dir) :
    ∃ msg, checkSumSasPath ls odf_dir = .error (.exc msg) := by
  induction ls with
  | nil =>
    obtain ⟨l, hl, _⟩ := hbad
    cases hl
  | cons l0 rest ih =>
    obtain ⟨l, hl, hsub, k, p, hsplit, hne⟩ := hbad
    by_cases h0 : hasSubstr l0 "PATH" = true
    · obtain ⟨k0, p0, hsp0⟩ := hwell l0 (List.mem_cons_self _ _) h0
      by_cases hp0 : p0 = odf_dir
      · have hrest : l ∈ rest := by
          rcases List.mem_cons.mp hl with rfl | h
          · rw [hsplit] at hsp0
            simp only [List.cons.injEq, and_true] at hsp0
            exact absurd (hsp0.2.trans hp0) hne
          · exact h
        obtain ⟨msg, hmsg⟩ := ih
          (fun q hq hs => hwell q (List.mem_cons_of_mem _ hq) hs)
          ⟨l, hrest, hsub, k, p, hsplit, hne⟩
        refine ⟨msg, ?_⟩
        simp only [checkSumSasPath, h0, if_true, hsp0]
        rw [if_neg (by simp [hp0])]
        exact hmsg
      · refine ⟨"SAS summary file PATH " ++ p0 ++ " mismatchs " ++ odf_dir, ?_⟩
        simp only [checkSumSasPath, h0, if_true, hsp0]
        rw [if_pos (by simp [hp0])]
    · have hrest : l ∈ rest := by
        rcases List.mem_cons.mp hl with rfl | h
        · exact absurd hsub h0
        · exact h
      obtain ⟨msg, hmsg⟩ := ih
        (fun q hq hs => hwell q (List.mem_cons_of_mem _ hq) hs)
        ⟨l, hrest, hsub, k, p, hsplit, hne⟩
      refine ⟨msg, ?_⟩
      simp only [checkSumSasPath]
      rw [if_neg h0]
      exact hmsg

/-- Witness for the amended C1 at concrete summary contents. -/
theorem c1_sumsas_mismatch_raises_witness :
    ((∀ l ∈ ["PATH /wrong"], hasSubstr l "PATH" = true → ∃ k p, pySplitWs l = [k, p]) ∧
     (∃ l ∈ ["PATH /wrong"], hasSubstr l "PATH" = true ∧
       ∃ k p, pySplitWs l = [k, p] ∧ p ≠ "/right")) ∧
    ∃ msg, checkSumSasPath ["PATH /wrong"] "/right" = .error (.exc msg) := by
  have hwell : ∀ l ∈ ["PATH /wrong"], hasSubstr l "PATH" = true →
      ∃ k p, pySplitWs l = [k, p] := by
    intro l hl _
    rw [List.mem_singleton] at hl
    subst hl
    exact ⟨"PATH", "/wrong", by decide⟩
  have hbad : ∃ l ∈ ["PATH /wrong"], hasSubstr l "PATH" = true ∧
      ∃ k p, pySplitWs l = [k, p] ∧ p ≠ "/right" :=
    ⟨"PATH /wrong", List.mem_singleton_self _, by decide,
     "PATH", "/wrong", by decide, by decide⟩
  exact ⟨⟨hwell, hbad⟩,
    c1_sumsas_mismatch_raises ["PATH /wrong"] "/right" hwell hbad⟩

/-! ## C2: the products-only level and the clobbered `level` variable -/

/-- C2: in the `esa` branch the local `level` is rebound to a LIST
(lines 264-267), so the later `level == 'PPS'` comparison (line 417) is
false and a products-only `esa` run wrongly enters the calibration branch,
aborting at `os.chdir` into the never-created raw-data directory; for
`heasarc` and `sciserver` the string survives and calibration is skipped
as specified (products message, no subprocess, no environment export). -/
theorem c2_esa_pps_calibration_not_skipped :
    errOf (setodf (idInputs "PPS" "esa" false) calWorld baseSt) =
      some (PyErr.fileNotFound "/data/0123456789/ODF") ∧
    (stOf (setodf (idInputs "PPS" "esa" false) calWorld baseSt)).trace.all
      (fun ev => match ev with
        | Event.ppsMessageE _ => false
        | _ => true) = true ∧
    errOf (setodf (idInputs "PPS" "heasarc" false) calWorld baseSt) = none ∧
    Event.ppsMessageE "/data/0123456789/pps" ∈
      (stOf (setodf (idInputs "PPS" "heasarc" false) calWorld baseSt)).trace ∧
    (stOf (setodf (idInputs "PPS" "heasarc" false) calWorld baseSt)).trace.all
      (fun ev => match ev with
        | Event.runE _ => false
        | Event.envSet _ _ => false
        | _ => true) = true ∧
    errOf (setodf (idInputs "PPS" "sciserver" false) calWorld baseSt) = none ∧
    Event.ppsMessageE "/data/0123456789/pps" ∈
      (stOf (setodf (idInputs "PPS" "sciserver" false) calWorld baseSt)).trace ∧
    (stOf (setodf (idInputs "PPS" "sciserver" false) calWorld baseSt)).trace.all
      (fun ev => match ev with
        | Event.runE _ => false
        | Event.envSet _ _ => false
        | _ => true) = true := by
  refine ⟨by decide, by decide, by decide, by decide, by decide, by decide,
    by decide, by decide⟩

/-! ## C6: the dead `except FileExistsError` handlers -/

/-- C6 (amended): every `except FileExistsError` handler is dead code —
the `sys.exit(1)` path can never execute, for any filesystem state; the
plain `os.path.exists` checks (downloaded archive, pre-staged files) never
abort at all; but for the glob-based checks (`MANIFEST*`, `ccf.cif`,
`*SUM.SAS`) the absence of the file still aborts the run at that point,
through an uncaught `IndexError` when the empty glob result is indexed. -/
theorem c6_exists_handlers_dead (s : St) (w : World) (g : List String) (n : String) :
    errOf (tryGlobExistsCheck s w g) ≠ some (PyErr.systemExit 1) ∧
    tryExistsCheck s w n = .ok s ∧
    errOf (tryGlobExistsCheck s w []) = some PyErr.indexError := by
  refine ⟨?_, rfl, rfl⟩
  cases g with
  | nil => simp [tryGlobExistsCheck, errOf]
  | cons m0 t => simp [tryGlobExistsCheck, errOf]

/-- C6 counterexample: the claim that the absence of the checked file
never aborts the run is false — with no `MANIFEST*` match the run aborts
at the manifest check with an uncaught `IndexError`. -/
theorem c6_counterexample :
    errOf (setodf (idInputs "ODF" "esa" false)
      { calWorld with glob := fun cwd pat =>
          if pat = "MANIFEST*" then [] else calWorld.glob cwd pat } baseSt) =
      some PyErr.indexError := by
  decide

/-! ## C7: encryption-key resolution -/

/-- A world with two candidate key files in the base data directory. -/
def keyWorldMulti : World :=
  { calWorld with
      glob := fun _ pat =>
        if pat = "/data/*0123456789*" then ["/data/k1", "/data/k2"] else [] }

/-- A world with no candidate key file at all. -/
def keyWorldNone : World :=
  { calWorld with glob := fun _ _ => [], isFile := fun _ => false }

/-- A world with exactly one regular candidate key file. -/
def keyWorldOne : World :=
  { calWorld with
      glob := fun _ pat =>
        if pat = "/data/*0123456789*" then ["/data/mykeyfile"] else [],
      isFile := fun _ => true }

/-- C7: with no explicit key parameter, key resolution fails with an
ambiguity error for multiple candidates and a not-found error for none —
but with exactly one regular candidate file, instead of reading the file's
first line the code passes the one-element glob LIST itself to `open()`
(line 371) and crashes with `TypeError`. -/
theorem c7_key_resolution :
    resolveKey (idInputs "ODF" "esa" false) keyWorldMulti "0123456789" "/data" baseSt =
      .error (.exc "Multiple possible encryption key files.", baseSt) ∧
    resolveKey (idInputs "ODF" "esa" false) keyWorldNone "0123456789" "/data" baseSt =
      .error (.exc "File decryption failed. No encryption file found.", baseSt) ∧
    resolveKey (idInputs "ODF" "esa" false) keyWorldOne "0123456789" "/data" baseSt =
      .error (.typeError, baseSt) := by
  refine ⟨rfl, rfl, rfl⟩

/-! ## C9: mode-selection checks -/

/-- Inputs selecting pre-staged mode but supplying only `sas_ccf`. -/
def prestagedOnlyCcf : Inputs :=
  { odfid := some "", data_dir := some "/data", level := "ODF", sasfiles := true,
    sas_ccf := some "/d/ccf.cif", sas_odf := none, cifbuild_opts := none,
    odfingest_opts := none, encryption_key := none, overwrite := false,
    repo := "esa" }

/-- C9: the first two configuration checks behave as claimed (neither mode
selected is rejected; an odfid combined with a pre-staged path is
rejected), but the third check uses `and` where the docstring requires
both paths, so supplying only `sas_ccf` with `sasfiles=True` passes the
configuration check and the run instead crashes later with a `TypeError`
when `sas_odf[0]` subscripts `None` (line 540). -/
theorem c9_single_prestaged_path_not_rejected :
    errOf (setodf { prestagedOnlyCcf with sasfiles := false, sas_ccf := none }
        calWorld baseSt) =
      some (PyErr.exc "Either an odfid must be given -OR- sasfiles = True") ∧
    errOf (setodf { prestagedOnlyCcf with odfid := some "0123456789", sasfiles := false }
        calWorld baseSt) =
      some (PyErr.exc "Parameter odfid icompatible with sas_ccf and sas_odf") ∧
    checkInputs prestagedOnlyCcf baseSt = .ok baseSt ∧
    errOf (setodf prestagedOnlyCcf calWorld baseSt) = some PyErr.typeError := by
  refine ⟨by decide, by decide, rfl, by decide⟩

/-! ## C3: pre-staged mode and the early `SAS_CCF` export -/

theorem exceptBind_ok {ε α β : Type} (v : α) (f : α → Except ε β) :
    (Except.ok v >>= f) = f v := rfl

theorem exceptBind_error {ε α β : Type} (e : ε) (f : α → Except ε β) :
    ((Except.error e : Except ε α) >>= f) = .error e := rfl

theorem tryExistsCheck_ok (s : St) (w : World) (n : String) :
    tryExistsCheck s w n = .ok s := rfl

theorem doEnvSet_cwd (s : St) (k v : String) : (doEnvSet s k v).cwd = s.cwd := rfl

theorem doEnvSet_dirs (s : St) (k v : String) : (doEnvSet s k v).dirs = s.dirs := rfl

theorem requireAbs_ok {v : Option String} {str : String} (h : v = some str)
    (habs : str.data.head? = some '/') (s : St) : requireAbs v s = .ok str := by
  subst h
  have hne : str.data ≠ [] := by
    intro hh
    rw [hh] at habs
    cases habs
  simp [requireAbs, hne, habs]

/-- The pre-staged `PATH` loop fails — carrying its input state unchanged —
whenever some line containing `PATH` has a two-field split whose path does
not exist. -/
theorem prestagedPathLoop_fails (w : World) (lines : List String) (s : St)
    (hbad : ∃ l ∈ lines, hasSubstr l "PATH" = true ∧
      ∀ k p, pySplitWs l = [k, p] →
        (decide (p ∈ s.dirs) || w.fileExists s.cwd p) = false) :
    ∃ e, prestagedPathLoop w lines s = .error (e, s) := by
  induction lines with
  | nil =>
    obtain ⟨l, hl, _⟩ := hbad
    cases hl
  | cons l0 rest ih =>
    obtain ⟨l, hl, hsub, hforall⟩ := hbad
    by_cases h0 : hasSubstr l0 "PATH" = true
    · cases hsp : pySplitWs l0 with
      | nil => exact ⟨.valueError, by simp [prestagedPathLoop, h0, hsp]⟩
      | cons a t =>
        cases t with
        | nil => exact ⟨.valueError, by simp [prestagedPathLoop, h0, hsp]⟩
        | cons b t2 =>
          cases t2 with
          | cons c t3 => exact ⟨.valueError, by simp [prestagedPathLoop, h0, hsp]⟩
          | nil =>
            by_cases hex : (decide (b ∈ s.dirs) || w.fileExists s.cwd b) = true
            · have hrest : l ∈ rest := by
                rcases List.mem_cons.mp hl with rfl | h
                · rw [hforall a b hsp] at hex
                  cases hex
                · exact h
              obtain ⟨e, he⟩ := ih ⟨l, hrest, hsub, hforall⟩
              cases hg : w.glob s.cwd (ospJoin b "MANIFEST*") with
              | nil =>
                exact ⟨.indexError, by simp [prestagedPathLoop, h0, hsp, hex, hg]⟩
              | cons m0 mt =>
                cases hm : w.fileExists s.cwd m0 with
                | false =>
                  exact ⟨.exc ("Missing " ++ m0 ++ " file. Missing ODF components?"),
                    by simp [prestagedPathLoop, h0, hsp, hex, hg, hm]⟩
                | true =>
                  refine ⟨e, ?_⟩
                  simp only [prestagedPathLoop, h0, if_true, hsp, hex, hg, hm]
                  simp only [Bool.not_true, Bool.false_eq_true, if_false]
                  exact he
            · have hex' : (decide (b ∈ s.dirs) || w.fileExists s.cwd b) = false := by
                cases hval : (decide (b ∈ s.dirs) || w.fileExists s.cwd b)
                · rfl
                · exact absurd hval hex
              exact ⟨.exc ("Summary file PATH " ++ b ++ " does not exist."),
                by simp [prestagedPathLoop, h0, hsp, hex']⟩
    · have hrest : l ∈ rest := by
        rcases List.mem_cons.mp hl with rfl | h
        · exact absurd hsub h0
        · exact h
      obtain ⟨e, he⟩ := ih ⟨l, hrest, hsub, hforall⟩
      refine ⟨e, ?_⟩
      simp only [prestagedPathLoop]
      rw [if_neg h0]
      exact he

/-- C3 (amended): in pre-staged mode, when the summary file's `PATH` value
does not reference an existing path, the run fails — but only AFTER
`SAS_CCF` has already been exported: the failure state is exactly the input
state with `SAS_CCF` set (and `SAS_ODF` never exported). -/
theorem c3_prestaged_fails_after_ccf_export (i : Inputs) (w : World) (s : St)
    (ccf odf : String)
    (hccf : i.sas_ccf = some ccf) (hcabs : ccf.data.head? = some '/')
    (hodf : i.sas_odf = some odf) (hoabs : odf.data.head? = some '/')
    (hname : hasSubstr odf "SUM.SAS" = true)
    (hfile : w.fileExists s.cwd odf = true)
    (hbad : ∃ l ∈ w.readLines odf, hasSubstr l "PATH" = true ∧
      ∀ k p, pySplitWs l = [k, p] →
        (decide (p ∈ s.dirs) || w.fileExists s.cwd p) = false) :
    ∃ e, prestaged i w s = .error (e, doEnvSet s "SAS_CCF" ccf) := by
  obtain ⟨e, he⟩ := prestagedPathLoop_fails w (w.readLines odf)
    (doEnvSet s "SAS_CCF" ccf) hbad
  refine ⟨e, ?_⟩
  simp only [prestaged, requireAbs_ok hccf hcabs, requireAbs_ok hodf hoabs,
    exceptBind_ok, tryExistsCheck_ok, hname, Bool.not_true, Bool.false_eq_true,
    if_false, doEnvSet_cwd, hfile, if_true, he, exceptBind_error]

/-- Witness for the amended C3 at a concrete pre-staged scenario. -/
theorem c3_prestaged_fails_after_ccf_export_witness :
    ∃ e, prestaged
        { odfid := some "", data_dir := some "/data", level := "ODF",
          sasfiles := true, sas_ccf := some "/d/ccf.cif",
          sas_odf := some "/d/0123SUM.SAS", cifbuild_opts := none,
          odfingest_opts := none, encryption_key := none, overwrite := false,
          repo := "esa" }
        { calWorld with
          fileExists := fun _ n => n ≠ "/nonexistent",
          readLines := fun _ => ["PATH /nonexistent"],
          glob := fun _ _ => [] }
        baseSt =
      .error (e, doEnvSet baseSt "SAS_CCF" "/d/ccf.cif") := by
  refine c3_prestaged_fails_after_ccf_export _ _ _ "/d/ccf.cif" "/d/0123SUM.SAS"
    rfl (by decide) rfl (by decide) (by decide) (by decide) ?_
  refine ⟨"PATH /nonexistent", List.mem_singleton_self _, by decide, ?_⟩
  intro k p h
  have hev : pySplitWs "PATH /nonexistent" = ["PATH", "/nonexistent"] := by decide
  rw [hev] at h
  simp only [List.cons.injEq, and_true] at h
  obtain ⟨h1, h2⟩ := h
  subst h1
  subst h2
  decide

/-- C3 counterexample: the claim that no environment variable has been
exported at the failure point is false — at the failure, `SAS_CCF` has
already been set. -/
theorem c3_counterexample :
    errOf (setodf
        { odfid := some "", data_dir := some "/data", level := "ODF",
          sasfiles := true, sas_ccf := some "/d/ccf.cif",
          sas_odf := some "/d/0123SUM.SAS", cifbuild_opts := none,
          odfingest_opts := none, encryption_key := none, overwrite := false,
          repo := "esa" }
        { calWorld with
          fileExists := fun _ n => n ≠ "/nonexistent",
          readLines := fun _ => ["PATH /nonexistent"],
          glob := fun _ _ => [] }
        baseSt) =
      some (PyErr.exc "Summary file PATH /nonexistent does not exist.") ∧
    Event.envSet "SAS_CCF" "/d/ccf.cif" ∈
      (stOf (setodf
        { odfid := some "", data_dir := some "/data", level := "ODF",
          sasfiles := true, sas_ccf := some "/d/ccf.cif",
          sas_odf := some "/d/0123SUM.SAS", cifbuild_opts := none,
          odfingest_opts := none, encryption_key := none, overwrite := false,
          repo := "esa" }
        { calWorld with
          fileExists := fun _ n => n ≠ "/nonexistent",
          readLines := fun _ => ["PATH /nonexistent"],
          glob := fun _ _ => [] }
        baseSt)).trace := by
  refine ⟨by decide, by decide⟩

/-! ## Trace lemmas: every phase only appends events, and every
environment write is an absolute `SAS_ODF`/`SAS_CCF` path -/

/-- Destructive filesystem actions. -/
def destructive : Event → Bool
  | Event.rmtreeE _ => true
  | Event.removeE _ => true
  | _ => false

/-- An event that is harmless for the environment-absoluteness invariant:
if it is an environment write at all, it writes an absolute path to
`SAS_ODF` or `SAS_CCF`. -/
def GoodEv (ev : Event) : Prop :=
  ∀ k v, ev = Event.envSet k v → (k = "SAS_ODF" ∨ k = "SAS_CCF") ∧ isAbs v

def GoodEvs (t : List Event) : Prop := ∀ ev ∈ t, GoodEv ev

theorem goodEvs_nil : GoodEvs [] := fun _ h => absurd h (List.not_mem_nil _)

theorem goodEvs_append {t1 t2 : List Event} (h1 : GoodEvs t1) (h2 : GoodEvs t2) :
    GoodEvs (t1 ++ t2) := by
  intro ev hev
  rcases List.mem_append.mp hev with h | h
  · exact h1 ev h
  · exact h2 ev h

theorem goodEvs_cons {ev : Event} {t : List Event} (h : GoodEv ev) (ht : GoodEvs t) :
    GoodEvs (ev :: t) := by
  intro e he
  rcases List.mem_cons.mp he with rfl | he'
  · exact h
  · exact ht e he'

theorem isAbs_append_left {a : String} (h : isAbs a) (b : String) : isAbs (a ++ b) := by
  unfold isAbs at *
  rw [String.data_append]
  cases hd : a.data with
  | nil => rw [hd] at h; cases h
  | cons c cs => rw [hd] at h; simpa using h

/-- `os.path.join` preserves absoluteness of the first component. -/
theorem ospJoin_abs {a : String} (h : isAbs a) (b : String) : isAbs (ospJoin a b) := by
  unfold ospJoin
  split
  · rename_i hb; exact hb
  · split
    · rename_i hb ha
      rw [ha] at h
      cases h
    · split
      · exact isAbs_append_left h b
      · exact isAbs_append_left (isAbs_append_left h "/") b

/-- The resolved data directory is absolute whenever the start directory
is. -/
theorem resolveDataDirAux_abs {startdir : String} (h : isAbs startdir)
    {dd d : String} (hres : resolveDataDirAux startdir dd = .ok d) :
    isAbs d := by
  unfold resolveDataDirAux at hres
  split at hres
  · cases hres
  · split at hres
    · injection hres with h'
      exact h' ▸ ospJoin_abs h _
    · split at hres
      · injection hres with h'
        exact h' ▸ ospJoin_abs h _
      · rename_i h1 h2 h3
        injection hres with h'
        subst h'
        simp only [ne_eq, not_not] at h2
        exact h2

theorem resolveDataDir_abs {startdir : String} (h : isAbs startdir)
    {dd : Option String} {d : String} (hres : resolveDataDir startdir dd = .ok d) :
    isAbs d :=
  resolveDataDirAux_abs h hres

/-- `requireAbs` only succeeds on absolute paths. -/
theorem requireAbs_abs {v : Option String} {s : St} {str : String}
    (h : requireAbs v s = .ok str) : isAbs str := by
  unfold requireAbs at h
  split at h
  · cases h
  · rename_i str'
    split at h
    · cases h
    · split at h
      · cases h
      · rename_i h1 h2
        injection h with h'
        subst h'
        simp only [ne_eq, not_not] at h2
        exact h2

theorem gzLoop_trace (files : List String) (s : St) :
    ∃ t, (gzLoop files s).trace = s.trace ++ t ∧ GoodEvs t ∧
      (gzLoop files s).env = s.env := by
  induction files generalizing s with
  | nil => exact ⟨[], by simp [gzLoop], goodEvs_nil, rfl⟩
  | cons f rest ih =>
    obtain ⟨t, ht, hg, he⟩ := ih (doRemove s f)
    refine ⟨Event.removeE f :: t, ?_, ?_, he⟩
    · show (gzLoop rest (doRemove s f)).trace = _
      rw [ht]
      show (s.trace ++ [Event.removeE f]) ++ t = _
      simp
    · exact goodEvs_cons (fun k v h => by cases h) hg

theorem tarLoop_trace (files : List String) (s : St) :
    ∃ t, (tarLoop files s).trace = s.trace ++ t ∧ GoodEvs t ∧
      (tarLoop files s).env = s.env := by
  induction files generalizing s with
  | nil => exact ⟨[], by simp [tarLoop], goodEvs_nil, rfl⟩
  | cons f rest ih =>
    obtain ⟨t, ht, hg, he⟩ := ih (doRemove s f)
    refine ⟨Event.removeE f :: t, ?_, ?_, he⟩
    · show (tarLoop rest (doRemove s f)).trace = _
      rw [ht]
      show (s.trace ++ [Event.removeE f]) ++ t = _
      simp
    · exact goodEvs_cons (fun k v h => by cases h) hg

/-- Pure-state trace extension with only harmless events. -/
def TraceOKSt (s s' : St) : Prop := ∃ t, s'.trace = s.trace ++ t ∧ GoodEvs t

/-- Trace extension for a possibly failing phase (the failure state
included). -/
def TraceOKE (s : St) (r : Except (PyErr × St) St) : Prop := TraceOKSt s (stOf r)

theorem traceOKSt_refl (s : St) : TraceOKSt s s := ⟨[], by simp, goodEvs_nil⟩

theorem traceOKSt_trans {s1 s2 s3 : St} (h1 : TraceOKSt s1 s2) (h2 : TraceOKSt s2 s3) :
    TraceOKSt s1 s3 := by
  obtain ⟨t1, ht1, hg1⟩ := h1
  obtain ⟨t2, ht2, hg2⟩ := h2
  exact ⟨t1 ++ t2, by rw [ht2, ht1, List.append_assoc], goodEvs_append hg1 hg2⟩

theorem traceOKSt_emit (s : St) {ev : Event} (h : GoodEv ev) :
    TraceOKSt s (emit s ev) := ⟨[ev], rfl, goodEvs_cons h goodEvs_nil⟩

theorem goodEv_mkdir (p : String) : GoodEv (Event.mkdirE p) := fun _ _ h => by cases h

theorem goodEv_rmtree (p : String) : GoodEv (Event.rmtreeE p) := fun _ _ h => by cases h

theorem goodEv_remove (p : String) : GoodEv (Event.removeE p) := fun _ _ h => by cases h

theorem goodEv_chdir (p : String) : GoodEv (Event.chdirE p) := fun _ _ h => by cases h

theorem goodEv_run (c : List String) : GoodEv (Event.runE c) := fun _ _ h => by cases h

theorem goodEv_shell (c : String) : GoodEv (Event.shellE c) := fun _ _ h => by cases h

theorem goodEv_download (a b : String) : GoodEv (Event.downloadE a b) :=
  fun _ _ h => by cases h

theorem goodEv_copytree (a b : String) : GoodEv (Event.copytreeE a b) :=
  fun _ _ h => by cases h

theorem goodEv_pps (p : String) : GoodEv (Event.ppsMessageE p) := fun _ _ h => by cases h

theorem goodEv_envSet {k v : String} (hk : k = "SAS_ODF" ∨ k = "SAS_CCF")
    (hv : isAbs v) : GoodEv (Event.envSet k v) := by
  intro k' v' h
  cases h
  exact ⟨hk, hv⟩

theorem traceOKSt_doRemove (s : St) (p : String) : TraceOKSt s (doRemove s p) :=
  traceOKSt_emit s (goodEv_remove p)

theorem traceOKSt_doRmtree (s : St) (p : String) : TraceOKSt s (doRmtree s p) :=
  ⟨[Event.rmtreeE p], rfl, goodEvs_cons (goodEv_rmtree p) goodEvs_nil⟩

theorem traceOKSt_addDir (s : St) (d : String) : TraceOKSt s (addDir s d) := by
  unfold addDir
  split
  · exact traceOKSt_refl s
  · exact ⟨[], by simp, goodEvs_nil⟩

theorem traceOKSt_doEnvSet (s : St) {k v : String} (hk : k = "SAS_ODF" ∨ k = "SAS_CCF")
    (hv : isAbs v) : TraceOKSt s (doEnvSet s k v) :=
  ⟨[Event.envSet k v], rfl, goodEvs_cons (goodEv_envSet hk hv) goodEvs_nil⟩

theorem traceOKE_doMkdir (s : St) (d : String) : TraceOKE s (doMkdir s d) := by
  unfold doMkdir
  split
  · exact traceOKSt_refl s
  · exact ⟨[Event.mkdirE d], rfl, goodEvs_cons (goodEv_mkdir d) goodEvs_nil⟩

theorem traceOKE_doChdir (s : St) (d : String) : TraceOKE s (doChdir s d) := by
  unfold doChdir
  split
  · exact ⟨[Event.chdirE d], rfl, goodEvs_cons (goodEv_chdir d) goodEvs_nil⟩
  · exact traceOKSt_refl s

theorem traceOKE_tryExistsCheck (s : St) (w : World) (n : String) :
    TraceOKE s (tryExistsCheck s w n) := traceOKSt_refl s

theorem stOf_tryGlobExistsCheck (s : St) (w : World) (g : List String) :
    stOf (tryGlobExistsCheck s w g) = s := by
  cases g <;> rfl

theorem traceOKE_tryGlobExistsCheck (s : St) (w : World) (g : List String) :
    TraceOKE s (tryGlobExistsCheck s w g) := by
  unfold TraceOKE
  rw [stOf_tryGlobExistsCheck]
  exact traceOKSt_refl s

/-- Composition of a phase and a continuation in the `Except` monad. -/
theorem traceOKE_bind {s : St} {a : Except (PyErr × St) St}
    {f : St → Except (PyErr × St) St} (ha : TraceOKE s a)
    (hf : ∀ s', TraceOKE s' (f s')) : TraceOKE s (a >>= f) := by
  cases a with
  | error e => exact ha
  | ok s1 => exact traceOKSt_trans ha (hf s1)

theorem foldl_trace {α : Type} {f : St → α → St}
    (hf : ∀ st a, TraceOKSt st (f st a)) :
    ∀ (l : List α) (s : St), TraceOKSt s (l.foldl f s) := by
  intro l
  induction l with
  | nil => intro s; exact traceOKSt_refl s
  | cons a rest ih =>
    intro s
    rw [List.foldl_cons]
    exact traceOKSt_trans (hf s a) (ih (f s a))

theorem traceOKSt_condRmtree (st : St) (c : Prop) [Decidable c] (p : String) :
    TraceOKSt st (if c then doRmtree st p else st) := by
  split
  · exact traceOKSt_doRmtree st p
  · exact traceOKSt_refl st

theorem heasarcPrune_trace (lvl : String)
    (walk : List (String × List String × List String)) (s : St) :
    TraceOKSt s (heasarcPrune lvl walk s) := by
  unfold heasarcPrune
  refine foldl_trace ?_ walk s
  intro st entry
  have h1 : TraceOKSt st (entry.2.2.foldl
      (fun st2 file =>
        if hasSubstr file "index.html" then doRemove st2 (ospJoin entry.1 file)
        else st2) st) := by
    refine foldl_trace ?_ _ st
    intro st2 file
    split
    · exact traceOKSt_doRemove st2 _
    · exact traceOKSt_refl st2
  refine traceOKSt_trans h1 ?_
  refine foldl_trace ?_ _ _
  intro st2 direc
  exact traceOKSt_trans (traceOKSt_condRmtree st2 _ _)
    (traceOKSt_trans (traceOKSt_condRmtree _ _ _) (traceOKSt_condRmtree _ _ _))


theorem esaLoop_trace (w : World) (oid odf_dir pps_dir odftar : String) :
    ∀ (levels : List String) (s : St),
      TraceOKE s (esaLoop w oid odf_dir pps_dir odftar levels s) := by
  intro levels
  induction levels with
  | nil => intro s; exact traceOKSt_refl s
  | cons levl rest ih =>
    intro s
    simp only [esaLoop, tryExistsCheck_ok, exceptBind_ok]
    split
    · refine traceOKE_bind (traceOKSt_trans (traceOKSt_emit s (goodEv_download oid levl))
        (traceOKE_doMkdir _ odf_dir)) ?_
      intro y
      split
      · exact traceOKSt_refl y
      · split
        · exact traceOKSt_refl y
        · exact traceOKSt_trans (traceOKSt_doRemove y odftar) (ih _)
    · split
      · refine traceOKE_bind (traceOKSt_trans (traceOKSt_emit s (goodEv_download oid levl))
          (traceOKE_doMkdir _ pps_dir)) ?_
        intro y
        split
        · exact traceOKSt_refl y
        · split
          · exact traceOKSt_refl y
          · exact traceOKSt_trans (traceOKSt_doRemove y odftar) (ih _)
      · split
        · exact traceOKSt_emit s (goodEv_download oid levl)
        · split
          · exact traceOKSt_emit s (goodEv_download oid levl)
          · exact traceOKSt_trans (traceOKSt_emit s (goodEv_download oid levl))
              (traceOKSt_trans (traceOKSt_doRemove _ odftar) (ih _))

theorem encIndex0_error_state {v : EncFile} {s : St} {e : PyErr} {s' : St}
    (h : encIndex0 v s = .error (e, s')) : s' = s := by
  unfold encIndex0 at h
  split at h
  · cases h
    rfl
  · split at h
    · cases h
      rfl
    · cases h
  · cases h
    rfl
  · cases h

theorem resolveKeyStep1_error_state {i : Inputs} {w : World} {oid ddir : String}
    {s : St} {e : PyErr} {s' : St}
    (h : resolveKeyStep1 i w oid ddir s = .error (e, s')) : s' = s := by
  unfold resolveKeyStep1 at h
  split at h
  · split at h
    · cases h
      rfl
    · split at h
      · cases h
        exact encIndex0_error_state (by assumption)
      · split at h
        · cases h
        · cases h
          rfl
  · split at h
    · cases h
    · cases h

theorem resolveKeyOpen_error_state {w : World} {s : St} {ef : EncFile}
    {k0 : Option String} {e : PyErr} {s' : St}
    (h : resolveKeyOpen w s ef k0 = .error (e, s')) : s' = s := by
  unfold resolveKeyOpen at h
  split at h
  · cases h
  · cases h
    rfl
  · split at h
    · cases h
      rfl
    · split at h
      · cases h
        rfl
      · cases h

theorem resolveKey_error_state {i : Inputs} {w : World} {oid ddir : String}
    {s : St} {e : PyErr} {s' : St}
    (h : resolveKey i w oid ddir s = .error (e, s')) : s' = s := by
  unfold resolveKey at h
  cases h1 : resolveKeyStep1 i w oid ddir s with
  | error es =>
    rw [h1, exceptBind_error] at h
    obtain ⟨e0, s0⟩ := es
    cases h
    exact resolveKeyStep1_error_state h1
  | ok p =>
    rw [h1, exceptBind_ok] at h
    cases h2 : resolveKeyOpen w s p.1 p.2 with
    | error es =>
      rw [h2, exceptBind_error] at h
      obtain ⟨e0, s0⟩ := es
      cases h
      exact resolveKeyOpen_error_state h2
    | ok key1 =>
      rw [h2, exceptBind_ok] at h
      cases key1 with
      | none =>
        cases h
        rfl
      | some k => cases h

theorem decryptLoop_trace (w : World) (key : String) :
    ∀ (files : List String) (s : St), TraceOKE s (decryptLoop w key files s) := by
  intro files
  induction files with
  | nil => intro s; exact traceOKSt_refl s
  | cons f rest ih =>
    intro s
    simp only [decryptLoop]
    split
    · exact ih s
    · split
      · exact traceOKSt_emit s (goodEv_shell _)
      · exact traceOKSt_trans (traceOKSt_emit s (goodEv_shell _))
          (traceOKSt_trans (traceOKSt_doRemove _ f) (ih _))

theorem decryptPhase_trace (i : Inputs) (w : World) (oid ddir : String) (s : St) :
    TraceOKE s (decryptPhase i w oid ddir s) := by
  unfold decryptPhase
  split
  · exact traceOKSt_refl s
  · cases hk : resolveKey i w oid ddir s with
    | error es =>
      obtain ⟨e0, s0⟩ := es
      show TraceOKSt s s0
      rw [resolveKey_error_state hk]
      exact traceOKSt_refl s
    | ok key =>
      exact decryptLoop_trace w key _ s

/-- The state carried by a `repoAcquire` result. -/
def stOfPair (r : Except (PyErr × St) (St × PyVal)) : St :=
  match r with
  | .ok (s, _) => s
  | .error (_, s) => s

theorem traceOKSt_stOfPair_bind {s : St} {a : Except (PyErr × St) St} {g : St → St}
    {v : PyVal} (ha : TraceOKE s a) (hg : ∀ y, TraceOKSt y (g y)) :
    TraceOKSt s (stOfPair (a >>= fun y => Except.ok (g y, v))) := by
  cases a with
  | error e => exact ha
  | ok x => exact traceOKSt_trans ha (hg x)

theorem traceOKSt_stOfPair_ite {c : Prop} [Decidable c] {s : St}
    {a b : Except (PyErr × St) (St × PyVal)}
    (ha : TraceOKSt s (stOfPair a)) (hb : TraceOKSt s (stOfPair b)) :
    TraceOKSt s (stOfPair (if c then a else b)) := by
  split
  · exact ha
  · exact hb

theorem repoAcquire_trace (i : Inputs) (w : World)
    (oid obs_dir odf_dir pps_dir : String) (s : St) :
    TraceOKSt s (stOfPair (repoAcquire i w oid obs_dir odf_dir pps_dir s)) := by
  unfold repoAcquire
  split
  · -- esa
    cases hc : doChdir s obs_dir with
    | error es =>
      obtain ⟨e0, s0⟩ := es
      show TraceOKSt s s0
      have h0 := traceOKE_doChdir s obs_dir
      rw [hc] at h0
      exact h0
    | ok s1 =>
      have h1 : TraceOKSt s s1 := by
        have h0 := traceOKE_doChdir s obs_dir
        rw [hc] at h0
        exact h0
      have h2 : TraceOKSt s1 (if w.fileExists s1.cwd (oid ++ ".tar.gz") = true
          then doRemove s1 (oid ++ ".tar.gz") else s1) := by
        split
        · exact traceOKSt_doRemove s1 _
        · exact traceOKSt_refl s1
      exact traceOKSt_trans h1 (traceOKSt_trans h2
        (traceOKSt_stOfPair_bind
          (esaLoop_trace w oid odf_dir pps_dir (oid ++ ".tar.gz")
            (if i.level = "ALL" then ["ODF", "PPS"] else [i.level]) _)
          (fun y => traceOKSt_refl y)))
  · split
    · -- heasarc
      exact traceOKSt_trans (traceOKSt_emit s (goodEv_shell _))
        (heasarcPrune_trace i.level w.walk _)
    · split
      · -- sciserver
        split
        · exact traceOKSt_stOfPair_bind (traceOKSt_refl s)
            (fun y => traceOKSt_trans (traceOKSt_emit y (goodEv_copytree _ _))
              (traceOKSt_addDir _ _))
        · exact traceOKSt_stOfPair_ite
            (traceOKSt_stOfPair_bind (traceOKE_doMkdir s odf_dir)
              (fun y => traceOKSt_trans (traceOKSt_emit y (goodEv_copytree _ _))
                (traceOKSt_addDir _ _)))
            (traceOKSt_stOfPair_ite
              (traceOKSt_stOfPair_bind (traceOKE_doMkdir s pps_dir)
                (fun y => traceOKSt_trans (traceOKSt_emit y (goodEv_copytree _ _))
                  (traceOKSt_addDir _ _)))
              (traceOKSt_stOfPair_bind (traceOKSt_refl s)
                (fun y => traceOKSt_trans (traceOKSt_emit y (goodEv_copytree _ _))
                  (traceOKSt_addDir _ _))))
      · -- unknown repo
        exact traceOKSt_refl s

theorem pyIndex0_error_state {l : List String} {s : St} {e : PyErr} {s' : St}
    (h : pyIndex0 l s = .error (e, s')) : s' = s := by
  unfold pyIndex0 at h
  split at h
  · cases h
    rfl
  · cases h

theorem requireAbs_error_state {v : Option String} {s : St} {e : PyErr} {s' : St}
    (h : requireAbs v s = .error (e, s')) : s' = s := by
  unfold requireAbs at h
  split at h
  · cases h
    rfl
  · split at h
    · cases h
      rfl
    · split at h
      · cases h
        rfl
      · cases h

theorem checkInputs_ok_eq {i : Inputs} {s s' : St}
    (h : checkInputs i s = .ok s') : s' = s := by
  unfold checkInputs at h
  split at h
  · cases h
  · split at h
    · cases h
    · split at h
      · cases h
      · cases h
        rfl

theorem checkInputs_error_state {i : Inputs} {s : St} {e : PyErr} {s' : St}
    (h : checkInputs i s = .error (e, s')) : s' = s := by
  unfold checkInputs at h
  split at h
  · cases h
    rfl
  · split at h
    · cases h
      rfl
    · split at h
      · cases h
        rfl
      · cases h

theorem envChecks_ok_eq {s s' : St} (h : envChecks s = .ok s') : s' = s := by
  unfold envChecks at h
  split at h
  · cases h
  · split at h
    · cases h
    · split at h
      · cases h
      · cases h
        rfl

theorem envChecks_error_state {s : St} {e : PyErr} {s' : St}
    (h : envChecks s = .error (e, s')) : s' = s := by
  unfold envChecks at h
  split at h
  · cases h
    rfl
  · split at h
    · cases h
      rfl
    · split at h
      · cases h
        rfl
      · cases h

theorem traceOKE_ok {s s' : St} (h : TraceOKSt s s') : TraceOKE s (.ok s') := h

theorem traceOKE_error {s s' : St} {e : PyErr} (h : TraceOKSt s s') :
    TraceOKE s (.error (e, s')) := h

/-- An `if` between two phases, each of which only appends good events. -/
theorem traceOKE_ite {s : St} {c : Prop} [Decidable c]
    {a b : Except (PyErr × St) St} (ha : TraceOKE s a) (hb : TraceOKE s b) :
    TraceOKE s (if c then a else b) := by
  split
  · exact ha
  · exact hb

/-- Bind over a result of arbitrary type, with explicit access to the
success and failure hypotheses. -/
theorem traceOKE_bind3 {α : Type} {s : St} {a : Except (PyErr × St) α}
    {f : α → Except (PyErr × St) St}
    (ha : ∀ e s', a = .error (e, s') → TraceOKSt s s')
    (hok : ∀ x, a = .ok x → TraceOKE s (f x)) : TraceOKE s (a >>= f) := by
  cases a with
  | error es =>
    obtain ⟨e, s'⟩ := es
    exact ha e s' rfl
  | ok x => exact hok x rfl

theorem prestagedPathLoop_trace (w : World) :
    ∀ (lines : List String) (s : St), TraceOKE s (prestagedPathLoop w lines s) := by
  intro lines
  induction lines with
  | nil => intro s; exact traceOKSt_refl s
  | cons l rest ih =>
    intro s
    unfold prestagedPathLoop
    split
    · split
      · split
        · exact traceOKSt_refl s
        · split
          · exact traceOKSt_refl s
          · split
            · exact traceOKSt_refl s
            · exact ih s
      · exact traceOKSt_refl s
    · exact ih s

theorem calibrate_trace (i : Inputs) (w : World) (odf_dir working_dir : String)
    (h1 : isAbs odf_dir) (h2 : isAbs working_dir) (s : St) :
    TraceOKE s (calibrate i w odf_dir working_dir s) := by
  unfold calibrate
  refine traceOKE_bind (traceOKE_doChdir s odf_dir) ?_
  intro s1
  refine traceOKE_bind (traceOKE_tryGlobExistsCheck s1 w _) ?_
  intro s2
  refine traceOKE_bind (traceOKSt_trans (traceOKSt_doEnvSet s2 (Or.inl rfl) h1)
    (traceOKE_doChdir _ working_dir)) ?_
  intro s3
  refine traceOKE_ite (traceOKSt_emit s3 (goodEv_run _)) ?_
  refine traceOKE_bind (traceOKSt_trans (traceOKSt_emit s3 (goodEv_run _))
    (traceOKE_tryGlobExistsCheck _ w _)) ?_
  intro s4
  have henv2 : TraceOKSt s4 (doEnvSet s4 "SAS_CCF" (ospJoin working_dir "ccf.cif")) :=
    traceOKSt_doEnvSet s4 (Or.inr rfl) (ospJoin_abs h2 _)
  refine traceOKE_ite (traceOKSt_trans henv2 (traceOKSt_emit _ (goodEv_run _))) ?_
  refine traceOKE_bind (traceOKSt_trans henv2 (traceOKSt_trans
    (traceOKSt_emit _ (goodEv_run _)) (traceOKE_tryGlobExistsCheck _ w _))) ?_
  intro s5
  refine traceOKE_bind3 ?_ ?_
  · intro e s' he
    rw [pyIndex0_error_state he]
    exact traceOKSt_refl s5
  · intro sum0 _
    have henv3 : TraceOKSt s5 (doEnvSet s5 "SAS_ODF" (ospJoin working_dir sum0)) :=
      traceOKSt_doEnvSet s5 (Or.inl rfl) (ospJoin_abs h2 _)
    have hjp : ∀ lines : List String,
        TraceOKE s5 ((match checkSumSasPath lines odf_dir with
          | .ok _ => Except.ok (doEnvSet s5 "SAS_ODF" (ospJoin working_dir sum0))
          | .error e => Except.error (e, doEnvSet s5 "SAS_ODF" (ospJoin working_dir sum0)))
          : Except (PyErr × St) St) := by
      intro lines
      cases checkSumSasPath lines odf_dir with
      | ok u => exact henv3
      | error e0 => exact henv3
    exact traceOKE_ite
      (hjp (w.readLines (ospJoin working_dir sum0)))
      (traceOKE_error henv3)

theorem idDrivenAcq_trace (i : Inputs) (w : World)
    (oid ddir obs_dir odf_dir pps_dir working_dir : String)
    (h1 : isAbs odf_dir) (h2 : isAbs working_dir) (s1 : St) :
    TraceOKE s1 (idDrivenAcq i w oid ddir obs_dir odf_dir pps_dir working_dir s1) := by
  unfold idDrivenAcq
  refine traceOKE_bind3 ?_ ?_
  · intro e s' he
    have h := repoAcquire_trace i w oid obs_dir odf_dir pps_dir s1
    rw [he] at h
    exact h
  · intro sv hsv
    obtain ⟨sx, lv⟩ := sv
    have hst : TraceOKSt s1 sx := by
      have h := repoAcquire_trace i w oid obs_dir odf_dir pps_dir s1
      rw [hsv] at h
      exact h
    refine traceOKSt_trans hst ?_
    refine traceOKE_bind (decryptPhase_trace i w oid ddir sx) ?_
    intro s2
    have hgz : TraceOKSt s2 (gzLoop (w.glob s2.cwd "**/*.gz") s2) := by
      obtain ⟨t, ht, hg, _⟩ := gzLoop_trace (w.glob s2.cwd "**/*.gz") s2
      exact ⟨t, ht, hg⟩
    refine traceOKSt_trans hgz ?_
    have htar : TraceOKSt (gzLoop (w.glob s2.cwd "**/*.gz") s2)
        (tarLoop (w.glob (gzLoop (w.glob s2.cwd "**/*.gz") s2).cwd "**/*.TAR")
          (gzLoop (w.glob s2.cwd "**/*.gz") s2)) := by
      obtain ⟨t, ht, hg, _⟩ := tarLoop_trace _ _
      exact ⟨t, ht, hg⟩
    refine traceOKSt_trans htar ?_
    exact traceOKE_ite (traceOKSt_emit _ (goodEv_pps _))
      (calibrate_trace i w odf_dir working_dir h1 h2 _)

theorem idDrivenCore_trace (i : Inputs) (w : World)
    (oid ddir obs_dir odf_dir pps_dir working_dir : String)
    (h1 : isAbs odf_dir) (h2 : isAbs working_dir) (s : St) :
    TraceOKE s (idDrivenCore i w oid ddir obs_dir odf_dir pps_dir working_dir s) := by
  unfold idDrivenCore
  refine traceOKE_bind ?_ ?_
  · exact traceOKE_ite (traceOKE_ok (traceOKSt_refl s)) (traceOKE_doMkdir s working_dir)
  intro s1
  exact idDrivenAcq_trace i w oid ddir obs_dir odf_dir pps_dir working_dir h1 h2 s1

theorem idDriven_trace (i : Inputs) (w : World)
    (oid ddir obs_dir odf_dir pps_dir working_dir : String)
    (h1 : isAbs odf_dir) (h2 : isAbs working_dir) (s : St) :
    TraceOKE s (idDriven i w oid ddir obs_dir odf_dir pps_dir working_dir s) := by
  unfold idDriven
  refine traceOKE_bind ?_ ?_
  · exact traceOKE_ite
      (traceOKE_ite (traceOKE_ok (traceOKSt_doRmtree s obs_dir))
        (traceOKE_error (traceOKSt_refl s)))
      (traceOKE_ok (traceOKSt_refl s))
  intro s1
  refine traceOKE_bind (traceOKE_doMkdir s1 obs_dir) ?_
  intro s2
  exact idDrivenCore_trace i w oid ddir obs_dir odf_dir pps_dir working_dir h1 h2 s2

theorem prestaged_trace (i : Inputs) (w : World) (s : St) :
    TraceOKE s (prestaged i w s) := by
  unfold prestaged
  refine traceOKE_bind3 ?_ ?_
  · intro e s' he
    rw [requireAbs_error_state he]
    exact traceOKSt_refl s
  · intro sasccf hccf
    refine traceOKE_bind3 ?_ ?_
    · intro e s' he
      rw [requireAbs_error_state he]
      exact traceOKSt_refl s
    · intro sasodf hodf
      refine traceOKE_bind (traceOKE_tryExistsCheck s w sasccf) ?_
      intro s1
      refine traceOKE_bind (traceOKE_tryExistsCheck s1 w sasodf) ?_
      intro s2
      have henv : TraceOKSt s2 (doEnvSet s2 "SAS_CCF" sasccf) :=
        traceOKSt_doEnvSet s2 (Or.inr rfl) (requireAbs_abs hccf)
      refine traceOKE_ite (traceOKE_error henv) ?_
      have hjp : ∀ lines : List String,
          TraceOKE s2 (prestagedPathLoop w lines (doEnvSet s2 "SAS_CCF" sasccf) >>=
            fun s => Except.ok (doEnvSet s "SAS_ODF" sasodf)) := by
        intro lines
        refine traceOKSt_trans henv ?_
        refine traceOKE_bind (prestagedPathLoop_trace w lines _) ?_
        intro s3
        exact traceOKE_ok (traceOKSt_doEnvSet s3 (Or.inl rfl) (requireAbs_abs hodf))
      exact traceOKE_ite (hjp (w.readLines sasodf)) (traceOKE_error henv)

/-- Every run of `setodf` started in an absolute working directory only
appends events to the trace, and all of them are harmless: every
environment write is an absolute `SAS_ODF` or `SAS_CCF` path. -/
theorem setodf_trace (i : Inputs) (w : World) (s0 : St) (habs : isAbs s0.cwd) :
    TraceOKE s0 (setodf i w s0) := by
  unfold setodf
  refine traceOKE_bind3 ?_ ?_
  · intro e s' he
    rw [checkInputs_error_state he]
    exact traceOKSt_refl s0
  · intro s1 h1
    rw [checkInputs_ok_eq h1]
    refine traceOKE_bind3 ?_ ?_
    · intro e s' he
      rw [envChecks_error_state he]
      exact traceOKSt_refl s0
    · intro s2 h2
      rw [envChecks_ok_eq h2]
      cases hr : resolveDataDir s0.cwd i.data_dir with
      | error e0 => exact traceOKE_error (traceOKSt_refl s0)
      | ok ddir =>
        have hdd : isAbs ddir := resolveDataDir_abs habs hr
        refine traceOKE_bind ?_ ?_
        · exact traceOKE_ite (traceOKE_ok (traceOKSt_refl s0)) (traceOKE_doMkdir s0 ddir)
        intro s3
        refine traceOKE_bind (traceOKE_doChdir s3 ddir) ?_
        intro s4
        refine traceOKE_ite ?_ ?_
        · cases ho : i.odfid with
          | none => exact traceOKE_error (traceOKSt_refl s4)
          | some oid =>
            exact traceOKE_ite
              (idDriven_trace i w oid ddir (ospJoin ddir oid)
                (ospJoin (ospJoin ddir oid) "ODF") (ospJoin (ospJoin ddir oid) "PPS")
                (ospJoin (ospJoin ddir oid) "working")
                (ospJoin_abs (ospJoin_abs hdd oid) "ODF")
                (ospJoin_abs (ospJoin_abs hdd oid) "working") s4)
              (traceOKE_ite (prestaged_trace i w s4) (traceOKE_ok (traceOKSt_refl s4)))
        · exact traceOKE_error (traceOKSt_refl s4)

/-- C8: every path recorded into process environment state by the
controller is absolute. For every run of `setodf` started from an absolute
working directory with an empty event trace, every environment write in
the run's trace (also of a failing run, at its failure state) assigns an
absolute path to `SAS_ODF` or `SAS_CCF`; and the resolved base data
directory is itself absolute whenever the resolution step succeeds. -/
theorem c8_env_exports_absolute (i : Inputs) (w : World) (s0 : St)
    (habs : isAbs s0.cwd) (h0 : s0.trace = []) :
    (∀ k v, Event.envSet k v ∈ (stOf (setodf i w s0)).trace →
      (k = "SAS_ODF" ∨ k = "SAS_CCF") ∧ isAbs v) ∧
    (∀ d, resolveDataDir s0.cwd i.data_dir = .ok d → isAbs d) := by
  constructor
  · intro k v hmem
    obtain ⟨t, ht, hg⟩ := setodf_trace i w s0 habs
    rw [ht, h0, List.nil_append] at hmem
    exact hg _ hmem k v rfl
  · intro d hd
    exact resolveDataDir_abs habs hd

theorem c8_env_exports_absolute_witness :
    (isAbs baseSt.cwd ∧ baseSt.trace = []) ∧
    Event.envSet "SAS_ODF" "/data/0123456789/ODF" ∈
      (stOf (setodf (idInputs "ODF" "esa" false) calWorld baseSt)).trace ∧
    (("SAS_ODF" = "SAS_ODF" ∨ "SAS_ODF" = "SAS_CCF") ∧ isAbs "/data/0123456789/ODF") :=
  ⟨⟨by decide, rfl⟩, by decide,
    (c8_env_exports_absolute (idInputs "ODF" "esa" false) calWorld baseSt
      (by decide) rfl).1 "SAS_ODF" "/data/0123456789/ODF" (by decide)⟩

/-- `shutil.rmtree` removes the directory itself. -/
theorem not_mem_doRmtree_self (s : St) (d : String) : d ∉ (doRmtree s d).dirs := by
  intro h
  have h2 := (List.mem_filter.mp h).2
  simp [startsWithDir] at h2

/-- With overwrite requested on an existing observation directory,
`idDriven` removes it, recreates it, and continues with the rest of the
pipeline from that state. -/
theorem idDriven_overwrite_step (i : Inputs) (w : World)
    (oid ddir obs_dir odf_dir pps_dir working_dir : String) (s : St)
    (hobs : obs_dir ∈ s.dirs) (hov : i.overwrite = true) :
    idDriven i w oid ddir obs_dir odf_dir pps_dir working_dir s =
    idDrivenCore i w oid ddir obs_dir odf_dir pps_dir working_dir
      { s with
          dirs := obs_dir :: s.dirs.filter (fun x => ¬ startsWithDir obs_dir x),
          trace := (s.trace ++ [Event.rmtreeE obs_dir]) ++ [Event.mkdirE obs_dir] } := by
  unfold idDriven
  rw [if_pos hobs, hov, if_pos rfl]
  simp only [exceptBind_ok]
  have h2 : doMkdir (doRmtree s obs_dir) obs_dir = .ok
      { s with
          dirs := obs_dir :: s.dirs.filter (fun x => ¬ startsWithDir obs_dir x),
          trace := (s.trace ++ [Event.rmtreeE obs_dir]) ++ [Event.mkdirE obs_dir] } := by
    unfold doMkdir
    rw [if_neg (not_mem_doRmtree_self s obs_dir)]
    rfl
  rw [h2, exceptBind_ok]

/-- Under the hypotheses that make the input and environment checks pass
and the data directory resolve and exist, `setodf` changes into the data
directory and runs the id-driven path. -/
theorem setodf_to_idDriven (i : Inputs) (w : World) (s0 : St) (oid ddir : String)
    (h_oid : i.odfid = some oid) (h_ne : oid ≠ "") (h_sf : i.sasfiles = false)
    (h_nc : optTruthy i.sas_ccf = false) (h_no : optTruthy i.sas_odf = false)
    (h_e1 : envTruthy s0.env "LHEASOFT" = true)
    (h_e2 : envTruthy s0.env "SAS_DIR" = true)
    (h_e3 : envTruthy s0.env "SAS_CCFPATH" = true)
    (h_dd : resolveDataDir s0.cwd i.data_dir = .ok ddir)
    (h_in : ddir ∈ s0.dirs) (h_lvl : i.level ∈ levelOpts) :
    setodf i w s0 = idDriven i w oid ddir (ospJoin ddir oid)
      (ospJoin (ospJoin ddir oid) "ODF") (ospJoin (ospJoin ddir oid) "PPS")
      (ospJoin (ospJoin ddir oid) "working")
      { s0 with cwd := ddir, trace := s0.trace ++ [Event.chdirE ddir] } := by
  have hto : optTruthy i.odfid = true := by
    rw [h_oid]
    simp [optTruthy, h_ne]
  have hci : checkInputs i s0 = .ok s0 := by
    simp [checkInputs, hto, h_nc, h_no, h_sf]
  have hec : envChecks s0 = .ok s0 := by
    simp [envChecks, h_e1, h_e2, h_e3]
  have hed : ensureDataDir s0 ddir = .ok s0 := by
    simp [ensureDataDir, h_in]
  have hch : doChdir s0 ddir =
      .ok { s0 with cwd := ddir, trace := s0.trace ++ [Event.chdirE ddir] } := by
    simp [doChdir, h_in]
  unfold setodf
  rw [hci]
  simp only [exceptBind_ok]
  rw [hec]
  simp only [exceptBind_ok]
  rw [h_dd]
  simp only [exceptBind_ok]
  rw [hed]
  simp only [exceptBind_ok]
  rw [hch]
  simp only [exceptBind_ok]
  have hto2 : optTruthy (some oid) = true := by
    simp [optTruthy, h_ne]
  rw [if_pos h_lvl, h_oid]
  simp only [hto2]
  rfl

/-- With overwrite requested on an existing observation directory, the
run's trace begins with the removal and recreation of that directory. -/
theorem idDriven_overwrite_trace (i : Inputs) (w : World)
    (oid ddir obs_dir odf_dir pps_dir working_dir : String) (s : St)
    (hobs : obs_dir ∈ s.dirs) (hov : i.overwrite = true)
    (h1 : isAbs odf_dir) (h2 : isAbs working_dir) :
    ∃ rest, (stOf (idDriven i w oid ddir obs_dir odf_dir pps_dir working_dir s)).trace
      = s.trace ++ [Event.rmtreeE obs_dir, Event.mkdirE obs_dir] ++ rest := by
  rw [idDriven_overwrite_step i w oid ddir obs_dir odf_dir pps_dir working_dir s hobs hov]
  obtain ⟨t, ht, _⟩ := idDrivenCore_trace i w oid ddir obs_dir odf_dir pps_dir working_dir
    h1 h2
    { s with
        dirs := obs_dir :: s.dirs.filter (fun x => ¬ startsWithDir obs_dir x),
        trace := (s.trace ++ [Event.rmtreeE obs_dir]) ++ [Event.mkdirE obs_dir] }
  refine ⟨t, ?_⟩
  rw [ht]
  simp

/-- C5: for every id-driven invocation that reaches the observation
directory check with that directory already present, overwrite=false makes
the run fail with the conflict error, leaving the directory set untouched,
the observation directory still present, and no destructive event in the
trace; overwrite=true removes the prior observation directory and
recreates it before anything else happens. -/
theorem c5_overwrite_guard (i : Inputs) (w : World) (s0 : St) (oid ddir : String)
    (h_abs : isAbs s0.cwd)
    (h_oid : i.odfid = some oid) (h_ne : oid ≠ "") (h_sf : i.sasfiles = false)
    (h_nc : optTruthy i.sas_ccf = false) (h_no : optTruthy i.sas_odf = false)
    (h_e1 : envTruthy s0.env "LHEASOFT" = true)
    (h_e2 : envTruthy s0.env "SAS_DIR" = true)
    (h_e3 : envTruthy s0.env "SAS_CCFPATH" = true)
    (h_dd : resolveDataDir s0.cwd i.data_dir = .ok ddir)
    (h_in : ddir ∈ s0.dirs) (h_lvl : i.level ∈ levelOpts)
    (h_obs : ospJoin ddir oid ∈ s0.dirs) :
    (i.overwrite = false →
      setodf i w s0 = .error
        (.exc ("Directory for " ++ oid ++ " found, will not overwrite."),
          { s0 with cwd := ddir, trace := s0.trace ++ [Event.chdirE ddir] }) ∧
      (stOf (setodf i w s0)).dirs = s0.dirs ∧
      ospJoin ddir oid ∈ (stOf (setodf i w s0)).dirs ∧
      ∀ ev ∈ (stOf (setodf i w s0)).trace, ev ∈ s0.trace ∨ destructive ev = false) ∧
    (i.overwrite = true →
      ∃ rest, (stOf (setodf i w s0)).trace =
        s0.trace ++ [Event.chdirE ddir, Event.rmtreeE (ospJoin ddir oid),
          Event.mkdirE (ospJoin ddir oid)] ++ rest) := by
  have hmain := setodf_to_idDriven i w s0 oid ddir h_oid h_ne h_sf h_nc h_no
    h_e1 h_e2 h_e3 h_dd h_in h_lvl
  constructor
  · intro hov
    have hid : idDriven i w oid ddir (ospJoin ddir oid)
        (ospJoin (ospJoin ddir oid) "ODF") (ospJoin (ospJoin ddir oid) "PPS")
        (ospJoin (ospJoin ddir oid) "working")
        { s0 with cwd := ddir, trace := s0.trace ++ [Event.chdirE ddir] } =
        .error (.exc ("Directory for " ++ oid ++ " found, will not overwrite."),
          { s0 with cwd := ddir, trace := s0.trace ++ [Event.chdirE ddir] }) := by
      unfold idDriven
      rw [if_pos (show ospJoin ddir oid ∈
        ({ s0 with cwd := ddir, trace := s0.trace ++ [Event.chdirE ddir] } : St).dirs
        from h_obs), hov]
      rfl
    refine ⟨?_, ?_, ?_, ?_⟩
    · rw [hmain]
      exact hid
    · rw [hmain, hid]
      rfl
    · rw [hmain, hid]
      exact h_obs
    · rw [hmain, hid]
      intro ev hev
      rcases List.mem_append.mp hev with h | h
      · exact Or.inl h
      · have hev2 := List.mem_singleton.mp h
        subst hev2
        exact Or.inr rfl
  · intro hov
    have hdd_abs : isAbs ddir := resolveDataDir_abs h_abs h_dd
    obtain ⟨rest, hrest⟩ := idDriven_overwrite_trace i w oid ddir (ospJoin ddir oid)
      (ospJoin (ospJoin ddir oid) "ODF") (ospJoin (ospJoin ddir oid) "PPS")
      (ospJoin (ospJoin ddir oid) "working")
      { s0 with cwd := ddir, trace := s0.trace ++ [Event.chdirE ddir] }
      (show ospJoin ddir oid ∈
        ({ s0 with cwd := ddir, trace := s0.trace ++ [Event.chdirE ddir] } : St).dirs
        from h_obs) hov
      (ospJoin_abs (ospJoin_abs hdd_abs oid) "ODF")
      (ospJoin_abs (ospJoin_abs hdd_abs oid) "working")
    refine ⟨rest, ?_⟩
    rw [hmain, hrest]
    simp

theorem c5_overwrite_guard_witness :
    (setodf (idInputs "ODF" "esa" false) calWorld
        { cwd := "/home", env := baseEnv, dirs := ["/data/0123456789", "/data"],
          trace := [] } =
      .error (.exc "Directory for 0123456789 found, will not overwrite.",
        { cwd := "/data", env := baseEnv, dirs := ["/data/0123456789", "/data"],
          trace := [Event.chdirE "/data"] })) ∧
    (∃ rest, (stOf (setodf (idInputs "ODF" "esa" true) calWorld
        { cwd := "/home", env := baseEnv, dirs := ["/data/0123456789", "/data"],
          trace := [] })).trace =
      [Event.chdirE "/data", Event.rmtreeE "/data/0123456789",
        Event.mkdirE "/data/0123456789"] ++ rest) := by
  constructor
  · exact ((c5_overwrite_guard (idInputs "ODF" "esa" false) calWorld
      { cwd := "/home", env := baseEnv, dirs := ["/data/0123456789", "/data"],
        trace := [] }
      "0123456789" "/data" (by decide) rfl (by decide) rfl rfl rfl
      (by decide) (by decide) (by decide) rfl (by decide) (by decide)
      (by decide)).1 rfl).1
  · exact (c5_overwrite_guard (idInputs "ODF" "esa" true) calWorld
      { cwd := "/home", env := baseEnv, dirs := ["/data/0123456789", "/data"],
        trace := [] }
      "0123456789" "/data" (by decide) rfl (by decide) rfl rfl rfl
      (by decide) (by decide) (by decide) rfl (by decide) (by decide)
      (by decide)).2 rfl
